import Mathlib

/-!
# VideoFilterApp: the pipeline controller and its filter chain

A shallow embedding of `src/VideoProcessor.h`, `src/VideoProcessor.cpp` and
`src/filters/Filter.h`.

* A `cv::Mat` is represented by its content (dimensions and pixel data), so a
  deep copy (`clone`) and a header copy (`=`) both yield an equal value.
* `Filter` is the abstract base class: the enabled flag together with the
  virtual `apply`, whose out-parameter `outputFrame` becomes a returned value.
* `VideoProcessor` is the record of the data members of the class.  Every
  public member function is a function from the state before the call to the
  returned value and the state after it.  The two worker threads are
  represented by the status of their `std::thread` members.
* OpenCV is not part of the repository: what `cv::VideoCapture` and
  `cv::VideoWriter` answer is supplied by a record of functions (`OpenCV`),
  and what the image operations answer by another (`ImgProc`).
* `Pipeline` adds the control point of each worker thread to the controller:
  `captureThreadFunc` and `processingThreadFunc` advance one statement (or one
  locked block) per step, interleaved in any order with the control calls.
* `GaussianBlurFilter` and `EdgeDetectionFilter` are the two filter classes
  of `src/filters`; a `double` is an exact rational number.
* `UserInterface.onTogglePlayPause` is the handler of the play/pause key in
  `src/ui/UserInterface.cpp`, as a function on the controller.
-/

namespace VideoFilterApp

/-! ## Frames -/

/-- Content of a `cv::Mat`: its dimensions and the pixel data. -/
structure Mat where
  rows : Nat := 0
  cols : Nat := 0
  channels : Nat := 0
  data : List Nat := []
  deriving DecidableEq, Repr

/-- The method `cv::Mat::clone`, a deep copy: a matrix with the same content. -/
def Mat.clone (m : Mat) : Mat :=
  { rows := m.rows, cols := m.cols, channels := m.channels, data := m.data }

/-- The method `cv::Mat::empty`. -/
def Mat.empty (m : Mat) : Bool :=
  m.rows * m.cols == 0 || m.data.isEmpty

/-! ## Filters (`filters/Filter.h`) -/

/-- The abstract class `Filter`: the protected member `enabled` and the pure
virtual `apply(inputFrame, outputFrame)`, which here returns the success flag
together with the frame it leaves in `outputFrame`. -/
structure Filter where
  enabled : Bool := true
  apply : Mat → Bool × Mat

/-- `Filter::isEnabled`. -/
def Filter.isEnabled (f : Filter) : Bool :=
  f.enabled

/-- `Filter::setEnabled`. -/
def Filter.setEnabled (f : Filter) (state : Bool) : Filter :=
  { f with enabled := state }

/-! ## What the controller sees of OpenCV -/

/-- State of a `cv::VideoCapture`: whether it is opened, the stream properties
the controller queries, the position of the next frame and the frames of the
stream. -/
structure VideoCapture where
  opened : Bool := false
  frameWidth : Int := 0
  frameHeight : Int := 0
  frameCount : Int := 0
  fps : ℚ := 0
  posFrames : Int := 0
  frames : List Mat := []
  deriving DecidableEq

/-- `cv::VideoCapture::isOpened`. -/
def VideoCapture.isOpened (c : VideoCapture) : Bool :=
  c.opened

/-- `cv::VideoCapture::release`: the capture is closed and holds no stream. -/
def VideoCapture.release (_c : VideoCapture) : VideoCapture :=
  {}

/-- State of a `cv::VideoWriter`: whether it is opened and the frames written. -/
structure VideoWriter where
  opened : Bool := false
  written : List Mat := []
  deriving DecidableEq

/-- `cv::VideoWriter::isOpened`. -/
def VideoWriter.isOpened (w : VideoWriter) : Bool :=
  w.opened

/-- `cv::VideoWriter::release`: the writer is closed. -/
def VideoWriter.release (w : VideoWriter) : VideoWriter :=
  { w with opened := false }

/-- `cv::VideoWriter::write`. -/
def VideoWriter.write (w : VideoWriter) (frame : Mat) : VideoWriter :=
  { w with written := w.written ++ [frame] }

/-- Answers of the OpenCV library, which is outside the repository.
* `captureOpen c filename`: `VideoCapture::open`, the returned flag and the capture afterwards;
* `captureSet c pos`: `VideoCapture::set(CAP_PROP_POS_FRAMES, pos)`;
* `captureRead c`: `VideoCapture::read`, the frame read (`none` when it returns false);
* `writerOpen w filename fourcc fps width height`: `VideoWriter::open`. -/
structure OpenCV where
  captureOpen : VideoCapture → String → Bool × VideoCapture
  captureSet : VideoCapture → Int → Bool × VideoCapture
  captureRead : VideoCapture → Option Mat × VideoCapture
  writerOpen : VideoWriter → String → Int → ℚ → Int → Int → Bool × VideoWriter

/-! ## The controller (`VideoProcessor.h`) -/

/-- Status of a `std::thread` member: `idle` is not joinable (default
constructed or joined), `running` is joinable with its function still
executing, `finished` is joinable with its function returned. -/
inductive WorkerThread where
  | idle
  | running
  | finished
  deriving DecidableEq, Repr

/-- `std::thread::joinable`. -/
def WorkerThread.joinable : WorkerThread → Bool
  | WorkerThread.idle => false
  | _ => true

/-- `std::thread::join`: returns once the function has returned; the thread
object is then no longer joinable. -/
def WorkerThread.join (_t : WorkerThread) : WorkerThread :=
  WorkerThread.idle

/-- Data members of `class VideoProcessor`; the default values are those of
the constructor `VideoProcessor::VideoProcessor()`. -/
structure VideoProcessor where
  videoCapture : VideoCapture := {}
  videoWriter : VideoWriter := {}
  inputFilename : String := ""
  outputFilename : String := ""
  frameWidth : Int := 0
  frameHeight : Int := 0
  totalFrames : Int := 0
  currentFrame : Int := 0
  fps : ℚ := 0
  videoEnded : Bool := false
  processing : Bool := false
  paused : Bool := false
  stopRequested : Bool := false
  filters : List Filter := []
  frameQueue : List Mat := []
  captureThread : WorkerThread := WorkerThread.idle
  processingThread : WorkerThread := WorkerThread.idle
  latestFrame : Mat := {}
  lastFrameTime : Int := 0
  currentFps : ℚ := 0

/-- The constant member `MAX_QUEUE_SIZE`. -/
def MAX_QUEUE_SIZE : Nat := 10

/-- `std::vector::erase` at one position: the elements behind the position
move one place towards the front. -/
def vectorErase {α : Type} : List α → Nat → List α
  | [], _ => []
  | _ :: rest, 0 => rest
  | x :: rest, n + 1 => x :: vectorErase rest n

namespace VideoProcessor

/-- The constructor `VideoProcessor::VideoProcessor()`. -/
def create : VideoProcessor :=
  {}

/-- `VideoProcessor::openVideo`, first statement: a previously opened video is closed. -/
def closePrevious (self : VideoProcessor) : VideoProcessor :=
  if self.videoCapture.isOpened then
    { self with videoCapture := self.videoCapture.release }
  else
    self

/-- `VideoProcessor::openVideo`. -/
def openVideo (cv : OpenCV) (self : VideoProcessor) (filename : String) :
    Bool × VideoProcessor :=
  let s1 := closePrevious self
  let r := cv.captureOpen s1.videoCapture filename
  if !r.1 then
    (false, { s1 with videoCapture := r.2 })
  else
    (true,
      { s1 with
        videoCapture := r.2
        frameWidth := r.2.frameWidth
        frameHeight := r.2.frameHeight
        totalFrames := r.2.frameCount
        fps := r.2.fps
        currentFrame := 0
        inputFilename := filename })

/-- `VideoProcessor::startProcessing`. -/
def startProcessing (self : VideoProcessor) : Bool × VideoProcessor :=
  if !self.videoCapture.isOpened then
    (false, self)
  else if self.processing then
    (true, self)
  else
    (true,
      { self with
        processing := true
        paused := false
        stopRequested := false
        frameQueue := []
        captureThread := WorkerThread.running
        processingThread := WorkerThread.running })

/-- `VideoProcessor::pauseProcessing`. -/
def pauseProcessing (self : VideoProcessor) : VideoProcessor :=
  { self with paused := true }

/-- `VideoProcessor::resumeProcessing`; the notification changes no member. -/
def resumeProcessing (self : VideoProcessor) : VideoProcessor :=
  { self with paused := false }

/-- `VideoProcessor::stopProcessing`. -/
def stopProcessing (self : VideoProcessor) : VideoProcessor :=
  if self.processing then
    let s1 := { self with stopRequested := true, paused := false, processing := false }
    let s2 := if s1.captureThread.joinable then
      { s1 with captureThread := s1.captureThread.join } else s1
    let s3 := if s2.processingThread.joinable then
      { s2 with processingThread := s2.processingThread.join } else s2
    if s3.videoWriter.isOpened then
      { s3 with videoWriter := s3.videoWriter.release }
    else
      s3
  else
    self

/-- `VideoProcessor::addFilter`; a null pointer is `none`. -/
def addFilter (self : VideoProcessor) (filter : Option Filter) : VideoProcessor :=
  match filter with
  | some f => { self with filters := self.filters ++ [f] }
  | none => self

/-- `VideoProcessor::removeFilter`. -/
def removeFilter (self : VideoProcessor) (index : Nat) : Bool × VideoProcessor :=
  if index < self.filters.length then
    (true, { self with filters := vectorErase self.filters index })
  else
    (false, self)

/-- `VideoProcessor::getFilters`. -/
def getFilters (self : VideoProcessor) : List Filter :=
  self.filters

/-- `VideoProcessor::setOutputFile`. -/
def setOutputFile (cv : OpenCV) (self : VideoProcessor) (filename : String) (fourcc : Int)
    (fps : ℚ) : Bool × VideoProcessor :=
  let fps1 := if fps ≤ 0 then self.fps else fps
  let r := cv.writerOpen self.videoWriter filename fourcc fps1 self.frameWidth self.frameHeight
  if r.1 then
    (true, { self with videoWriter := r.2, outputFilename := filename })
  else
    (false, { self with videoWriter := r.2 })

/-- `VideoProcessor::getLatestFrame`. -/
def getLatestFrame (self : VideoProcessor) : Mat :=
  self.latestFrame.clone

/-- `VideoProcessor::isProcessing`. -/
def isProcessing (self : VideoProcessor) : Bool :=
  self.processing && !self.stopRequested

/-- `VideoProcessor::getFrameRate`. -/
def getFrameRate (self : VideoProcessor) : ℚ :=
  self.currentFps

/-- `VideoProcessor::getCurrentFramePosition`. -/
def getCurrentFramePosition (self : VideoProcessor) : Int :=
  self.currentFrame

/-- `VideoProcessor::getTotalFrames`. -/
def getTotalFrames (self : VideoProcessor) : Int :=
  self.totalFrames

/-- `VideoProcessor::hasVideoEnded`. -/
def hasVideoEnded (self : VideoProcessor) : Bool :=
  self.videoEnded

/-- `VideoProcessor::seekToFrame`. -/
def seekToFrame (cv : OpenCV) (self : VideoProcessor) (framePos : Int) :
    Bool × VideoProcessor :=
  if framePos < 0 ∨ framePos ≥ self.totalFrames then
    (false, self)
  else
    let wasPaused := self.paused
    let s1 := self.pauseProcessing
    let s2 := { s1 with frameQueue := [] }
    let r := cv.captureSet s2.videoCapture framePos
    let s3 := { s2 with videoCapture := r.2 }
    let s4 := if r.1 then { s3 with currentFrame := framePos } else s3
    let s5 := if !wasPaused then s4.resumeProcessing else s4
    (r.1, s5)

/-- `VideoProcessor::restartVideo`. -/
def restartVideo (cv : OpenCV) (self : VideoProcessor) : Bool × VideoProcessor :=
  if self.inputFilename.isEmpty || !self.videoCapture.isOpened then
    (false, self)
  else
    let s1 := { self with videoEnded := false }
    let r := cv.captureSet s1.videoCapture 0
    let s2 := { s1 with videoCapture := r.2 }
    if r.1 then
      let s3 := { s2 with currentFrame := 0 }
      if !s3.processing then
        (true, s3.startProcessing.2)
      else if s3.paused then
        (true, s3.resumeProcessing)
      else
        (true, s3)
    else
      (false, s2)

/-- The loop of `VideoProcessor::applyFilters` over the rest of the chain:
`temp` is the working frame and `result` the last output of a filter. -/
def applyLoop : List Filter → Mat → Mat → Mat
  | [], temp, _ => temp
  | filter :: rest, temp, result =>
    if filter.isEnabled then
      let result1 := (filter.apply temp).2
      applyLoop rest result1.clone result1
    else
      applyLoop rest temp result

/-- `VideoProcessor::applyFilters`: the frame left in `output`. -/
def applyFilters (self : VideoProcessor) (input : Mat) : Mat :=
  applyLoop self.filters input.clone {}

end VideoProcessor

/-- States a controller can be in after construction and any sequence of calls
of its public member functions. -/
inductive Reachable (cv : OpenCV) : VideoProcessor → Prop where
  | create : Reachable cv VideoProcessor.create
  | openVideo (s : VideoProcessor) (filename : String) :
      Reachable cv s → Reachable cv (s.openVideo cv filename).2
  | startProcessing (s : VideoProcessor) :
      Reachable cv s → Reachable cv s.startProcessing.2
  | pauseProcessing (s : VideoProcessor) :
      Reachable cv s → Reachable cv s.pauseProcessing
  | resumeProcessing (s : VideoProcessor) :
      Reachable cv s → Reachable cv s.resumeProcessing
  | stopProcessing (s : VideoProcessor) :
      Reachable cv s → Reachable cv s.stopProcessing
  | addFilter (s : VideoProcessor) (filter : Option Filter) :
      Reachable cv s → Reachable cv (s.addFilter filter)
  | removeFilter (s : VideoProcessor) (index : Nat) :
      Reachable cv s → Reachable cv (s.removeFilter index).2
  | setOutputFile (s : VideoProcessor) (filename : String) (fourcc : Int) (fps : ℚ) :
      Reachable cv s → Reachable cv (s.setOutputFile cv filename fourcc fps).2
  | seekToFrame (s : VideoProcessor) (framePos : Int) :
      Reachable cv s → Reachable cv (s.seekToFrame cv framePos).2
  | restartVideo (s : VideoProcessor) :
      Reachable cv s → Reachable cv (s.restartVideo cv).2

/-! ## The frame-rate estimate (`processingThreadFunc`, "Update FPS calculation") -/

/-- Ticks of `std::chrono::high_resolution_clock` in one millisecond; the
clock counts nanoseconds. -/
def ticksPerMillisecond : Int := 1000000

/-- The expression `duration_cast<milliseconds>(now - lastFrameTime).count()`:
the difference in whole milliseconds, rounded towards zero. -/
def elapsedMilliseconds (lastFrameTime now : Int) : Int :=
  Int.tdiv (now - lastFrameTime) ticksPerMillisecond

namespace VideoProcessor

/-- The end of the loop body of `VideoProcessor::processingThreadFunc`: the
frame-rate estimate is updated from the clock reading `now`, which is then
stored in `lastFrameTime`.  The `double` operations are exact here. -/
def updateFrameRate (self : VideoProcessor) (now : Int) : VideoProcessor :=
  let s1 :=
    if self.lastFrameTime > 0 then
      let duration := elapsedMilliseconds self.lastFrameTime now
      if duration > 0 then
        let instantFps : ℚ := 1000 / (duration : ℚ)
        { self with currentFps := self.currentFps * (9 / 10) + instantFps * (1 / 10) }
      else
        self
    else
      self
  { s1 with lastFrameTime := now }

/-- `VideoProcessor::stopProcessing`, the statements before the joins: the
threads are signalled to stop. -/
def stopSignal (self : VideoProcessor) : VideoProcessor :=
  { self with stopRequested := true, paused := false, processing := false }

/-- `VideoProcessor::stopProcessing`, the statements behind the signal: both
threads are joined and the video writer is closed if open. -/
def stopJoin (self : VideoProcessor) : VideoProcessor :=
  let s2 := if self.captureThread.joinable then
    { self with captureThread := self.captureThread.join } else self
  let s3 := if s2.processingThread.joinable then
    { s2 with processingThread := s2.processingThread.join } else s2
  if s3.videoWriter.isOpened then
    { s3 with videoWriter := s3.videoWriter.release }
  else
    s3

end VideoProcessor

/-! ## The two worker threads and their interleaving with the control calls -/

/-- Control points of `VideoProcessor::captureThreadFunc`, the decode task.
* `absent`: no decode task exists (never started, or joined);
* `loopTest`: at `while (!stopRequested)`;
* `pauseTest`: at `if (paused)`;
* `pauseWait`: inside the wait for `!paused || stopRequested`;
* `spaceTest`: at `if (frameQueue.size() >= MAX_QUEUE_SIZE)`;
* `spaceWait`: inside the wait for `frameQueue.size() < MAX_QUEUE_SIZE || stopRequested`;
* `read`: at `videoCapture.read(frame)`;
* `position frame`: at the update of `currentFrame`, `frame` has been read;
* `push frame`: at `frameQueue.push(frame.clone())`;
* `done`: the function has returned. -/
inductive CapturePc where
  | absent
  | loopTest
  | pauseTest
  | pauseWait
  | spaceTest
  | spaceWait
  | read
  | position (frame : Mat)
  | push (frame : Mat)
  | done
  deriving DecidableEq, Repr

/-- Control points of `VideoProcessor::processingThreadFunc`, the filter task.
* `absent`: no filter task exists;
* `loopTest`: at `while (!stopRequested)`;
* `fetch`: at the locked block that takes a frame from the queue;
* `timedWait`: inside `wait_for` (queue empty, video ended, not paused);
* `wait`: inside the normal wait for more frames;
* `apply inputFrame`: at `applyFilters(inputFrame, outputFrame)`;
* `write outputFrame`: at `if (videoWriter.isOpened())`;
* `publish outputFrame`: at `latestFrame = outputFrame.clone()`;
* `frameRate`: at the update of the frame-rate estimate;
* `done`: the function has returned. -/
inductive FilterPc where
  | absent
  | loopTest
  | fetch
  | timedWait
  | wait
  | apply (inputFrame : Mat)
  | write (outputFrame : Mat)
  | publish (outputFrame : Mat)
  | frameRate
  | done
  deriving DecidableEq, Repr

/-- The controller together with its two worker threads: the members `vp`,
the control point of each task, whether the control thread is inside
`stopProcessing` waiting in a join, and three histories that the program does
not store: the frames read from the source, the frames taken from the queue
and the frames published as latest frame. -/
structure Pipeline where
  vp : VideoProcessor := {}
  decode : CapturePc := CapturePc.absent
  filter : FilterPc := FilterPc.absent
  joining : Bool := false
  readLog : List Mat := []
  popLog : List Mat := []
  published : List Mat := []

/-- What the scheduler or the control thread does next.  A step of the filter
task carries whether a pending `wait_for` has timed out and the clock reading. -/
inductive Action where
  | decode
  | filter (timeout : Bool) (now : Int)
  | openVideo (filename : String)
  | startProcessing
  | pauseProcessing
  | resumeProcessing
  | stopRequest
  | stopJoin
  | addFilter (filter : Option Filter)
  | removeFilter (index : Nat)
  | setOutputFile (filename : String) (fourcc : Int) (fps : ℚ)
  | seekToFrame (framePos : Int)
  | restartVideo

/-- The two halves of a call of `stopProcessing`. -/
def Action.isStop : Action → Bool
  | Action.stopRequest => true
  | Action.stopJoin => true
  | _ => false

/-- The steps of the two tasks and the calls `pauseProcessing` and `resumeProcessing`. -/
def Action.isTaskOrPause : Action → Bool
  | Action.decode => true
  | Action.filter _ _ => true
  | Action.pauseProcessing => true
  | Action.resumeProcessing => true
  | _ => false

namespace Pipeline

/-- A freshly constructed controller; no task exists. -/
def create : Pipeline :=
  {}

/-- The decode task returns from `captureThreadFunc`. -/
def decodeExit (p : Pipeline) : Pipeline :=
  { p with
    vp := { p.vp with captureThread := WorkerThread.finished }
    decode := CapturePc.done }

/-- One step of `VideoProcessor::captureThreadFunc`.  A wait whose condition
does not hold leaves the state as it is. -/
def decodeStep (cv : OpenCV) (p : Pipeline) : Pipeline :=
  match p.decode with
  | CapturePc.absent => p
  | CapturePc.done => p
  | CapturePc.loopTest =>
    if p.vp.stopRequested then p.decodeExit else { p with decode := CapturePc.pauseTest }
  | CapturePc.pauseTest =>
    if p.vp.paused then { p with decode := CapturePc.pauseWait }
    else { p with decode := CapturePc.spaceTest }
  | CapturePc.pauseWait =>
    if !p.vp.paused || p.vp.stopRequested then { p with decode := CapturePc.loopTest }
    else p
  | CapturePc.spaceTest =>
    if p.vp.frameQueue.length ≥ MAX_QUEUE_SIZE then { p with decode := CapturePc.spaceWait }
    else { p with decode := CapturePc.read }
  | CapturePc.spaceWait =>
    if decide (p.vp.frameQueue.length < MAX_QUEUE_SIZE) || p.vp.stopRequested then
      { p with decode := CapturePc.read }
    else p
  | CapturePc.read =>
    match cv.captureRead p.vp.videoCapture with
    | (some frame, c) =>
      { p with
        vp := { p.vp with videoCapture := c }
        decode := CapturePc.position frame
        readLog := p.readLog ++ [frame] }
    | (none, c) =>
      decodeExit { p with vp := { p.vp with videoCapture := c, videoEnded := true } }
  | CapturePc.position frame =>
    { p with
      vp := { p.vp with currentFrame := p.vp.videoCapture.posFrames }
      decode := CapturePc.push frame }
  | CapturePc.push frame =>
    { p with
      vp := { p.vp with frameQueue := p.vp.frameQueue ++ [frame.clone] }
      decode := CapturePc.loopTest }

/-- The filter task returns from `processingThreadFunc`. -/
def filterExit (p : Pipeline) : Pipeline :=
  { p with
    vp := { p.vp with processingThread := WorkerThread.finished }
    filter := FilterPc.done }

/-- The statements `inputFrame = frameQueue.front(); frameQueue.pop();`. -/
def popFront (p : Pipeline) : Pipeline :=
  match p.vp.frameQueue with
  | [] => p
  | frame :: rest =>
    { p with
      vp := { p.vp with frameQueue := rest }
      filter := FilterPc.apply frame
      popLog := p.popLog ++ [frame] }

/-- The statements behind either wait of the filter task:
`if (stopRequested) break; if (frameQueue.empty()) continue;` and then the pop. -/
def afterWait (p : Pipeline) : Pipeline :=
  if p.vp.stopRequested then p.filterExit
  else if p.vp.frameQueue.isEmpty then { p with filter := FilterPc.loopTest }
  else p.popFront

/-- One step of `VideoProcessor::processingThreadFunc`.  A wait whose
condition does not hold (and, for `wait_for`, that has not timed out) leaves
the state as it is. -/
def filterStep (timeout : Bool) (now : Int) (p : Pipeline) : Pipeline :=
  match p.filter with
  | FilterPc.absent => p
  | FilterPc.done => p
  | FilterPc.loopTest =>
    if p.vp.stopRequested then p.filterExit else { p with filter := FilterPc.fetch }
  | FilterPc.fetch =>
    if p.vp.frameQueue.isEmpty then
      if p.vp.videoEnded && !p.vp.paused then { p with filter := FilterPc.timedWait }
      else { p with filter := FilterPc.wait }
    else p.popFront
  | FilterPc.timedWait =>
    if !p.vp.frameQueue.isEmpty || p.vp.stopRequested || !p.vp.videoEnded || timeout then
      if p.vp.frameQueue.isEmpty && p.vp.videoEnded && !p.vp.stopRequested then
        { p with filter := FilterPc.loopTest }
      else p.afterWait
    else p
  | FilterPc.wait =>
    if !p.vp.frameQueue.isEmpty || p.vp.stopRequested then p.afterWait else p
  | FilterPc.apply inputFrame =>
    { p with filter := FilterPc.write (p.vp.applyFilters inputFrame) }
  | FilterPc.write outputFrame =>
    if p.vp.videoWriter.isOpened then
      { p with
        vp := { p.vp with videoWriter := p.vp.videoWriter.write outputFrame }
        filter := FilterPc.publish outputFrame }
    else { p with filter := FilterPc.publish outputFrame }
  | FilterPc.publish outputFrame =>
    { p with
      vp := { p.vp with latestFrame := outputFrame.clone }
      filter := FilterPc.frameRate
      published := p.published ++ [outputFrame.clone] }
  | FilterPc.frameRate =>
    { p with vp := p.vp.updateFrameRate now, filter := FilterPc.loopTest }

/-- The state after a control call that left the members as `vp1`: when the
call has set the processing flag, it has gone through the end of
`startProcessing` and both tasks begin at the head of their loops. -/
def afterCall (p : Pipeline) (vp1 : VideoProcessor) : Pipeline :=
  if !p.vp.processing && vp1.processing then
    { p with vp := vp1, decode := CapturePc.loopTest, filter := FilterPc.loopTest }
  else
    { p with vp := vp1 }

/-- Whether the decode task is not executing. -/
def decodeReturned (p : Pipeline) : Bool :=
  p.decode == CapturePc.done || p.decode == CapturePc.absent

/-- Whether the filter task is not executing. -/
def filterReturned (p : Pipeline) : Bool :=
  p.filter == FilterPc.done || p.filter == FilterPc.absent

/-- One step of the whole system.  The control calls are taken as single
steps, except `stopProcessing`, whose joins wait for the tasks: it is the
step `stopRequest`, then steps of the tasks until both have returned, then
`stopJoin`; while it waits the control thread makes no other call. -/
def step (cv : OpenCV) (a : Action) (p : Pipeline) : Pipeline :=
  match a with
  | Action.decode => p.decodeStep cv
  | Action.filter timeout now => p.filterStep timeout now
  | Action.stopJoin =>
    if p.joining && p.decodeReturned && p.filterReturned then
      { p with
        vp := p.vp.stopJoin
        joining := false
        decode := CapturePc.absent
        filter := FilterPc.absent }
    else p
  | Action.stopRequest =>
    if p.joining then p
    else if p.vp.processing then { p with vp := p.vp.stopSignal, joining := true }
    else p
  | Action.openVideo filename =>
    if p.joining then p else { p with vp := (p.vp.openVideo cv filename).2 }
  | Action.startProcessing =>
    if p.joining then p else p.afterCall p.vp.startProcessing.2
  | Action.pauseProcessing =>
    if p.joining then p else { p with vp := p.vp.pauseProcessing }
  | Action.resumeProcessing =>
    if p.joining then p else { p with vp := p.vp.resumeProcessing }
  | Action.addFilter filter =>
    if p.joining then p else { p with vp := p.vp.addFilter filter }
  | Action.removeFilter index =>
    if p.joining then p else { p with vp := (p.vp.removeFilter index).2 }
  | Action.setOutputFile filename fourcc fps =>
    if p.joining then p else { p with vp := (p.vp.setOutputFile cv filename fourcc fps).2 }
  | Action.seekToFrame framePos =>
    if p.joining then p else { p with vp := (p.vp.seekToFrame cv framePos).2 }
  | Action.restartVideo =>
    if p.joining then p else p.afterCall (p.vp.restartVideo cv).2

/-- The state after a sequence of steps. -/
def run (cv : OpenCV) (actions : List Action) (p : Pipeline) : Pipeline :=
  actions.foldl (fun q a => step cv a q) p

end Pipeline

/-- The frames that `count` successive calls of `VideoCapture::read` yield
from the capture `c`, up to the first call that fails, and the capture
afterwards. -/
def readFrames (cv : OpenCV) : Nat → VideoCapture → List Mat × VideoCapture
  | 0, c => ([], c)
  | count + 1, c =>
    match cv.captureRead c with
    | (some frame, c1) => (frame :: (readFrames cv count c1).1, (readFrames cv count c1).2)
    | (none, c1) => ([], c1)

/-! ## The two filters (`filters/GaussianBlurFilter.cpp`, `filters/EdgeDetectionFilter.cpp`) -/

/-- A `std::map<std::string, double>`: the value stored under each key, if
any.  A `double` is taken as an exact rational number. -/
abbrev Params := String → Option ℚ

/-- The integer part of a `double`, rounding towards zero: what
`static_cast<int>` yields for a value whose integer part fits an `int`. -/
def truncToInt (x : ℚ) : Int :=
  if 0 ≤ x then ⌊x⌋ else ⌈x⌉

/-- The smallest value of the 32-bit type `int`. -/
def INT_MIN : Int := -2147483648

/-- The largest value of the 32-bit type `int`. -/
def INT_MAX : Int := 2147483647

/-- The conversion `static_cast<int>` of a `double` to the 32-bit `int`: the
integer part when it fits.  When it does not fit, C++ leaves the result
undefined and the program gets whatever the processor's conversion yields;
that value is the parameter `indefinite` (`INT_MIN` on x86-64). -/
def staticCastInt (indefinite : Int) (x : ℚ) : Int :=
  if INT_MIN ≤ truncToInt x ∧ truncToInt x ≤ INT_MAX then truncToInt x else indefinite

/-- Colour conversions requested from `cv::cvtColor`. -/
inductive ColorCode where
  | BGR2GRAY
  | GRAY2BGR
  deriving DecidableEq, Repr

/-- Image operations of OpenCV, which is outside the repository; `none` is a
thrown `cv::Exception`.
* `gaussianBlur src kernelSize sigmaX sigmaY`: `cv::GaussianBlur`;
* `canny src threshold1 threshold2 apertureSize`: `cv::Canny`;
* `cvtColor src code`: `cv::cvtColor`. -/
structure ImgProc where
  gaussianBlur : Mat → Int → ℚ → ℚ → Option Mat
  canny : Mat → ℚ → ℚ → Int → Option Mat
  cvtColor : Mat → ColorCode → Option Mat

/-- Data members of `class GaussianBlurFilter` with the inherited `enabled`;
the default values are those of the default constructor. -/
structure GaussianBlurFilter where
  enabled : Bool := true
  kernelSize : Int := 5
  sigmaX : ℚ := 3 / 2
  sigmaY : ℚ := 3 / 2

namespace GaussianBlurFilter

/-- The constructor `GaussianBlurFilter::GaussianBlurFilter()`. -/
def create : GaussianBlurFilter :=
  {}

/-- The constructor `GaussianBlurFilter(int kernelSize, double sigmaX, double sigmaY)`. -/
def construct (kernelSize : Int) (sigmaX sigmaY : ℚ) : GaussianBlurFilter :=
  let self : GaussianBlurFilter := { kernelSize := kernelSize, sigmaX := sigmaX, sigmaY := sigmaY }
  if Int.tmod kernelSize 2 = 0 then
    { self with kernelSize := kernelSize + 1 }
  else
    self

/-- `Filter::isEnabled`, inherited. -/
def isEnabled (self : GaussianBlurFilter) : Bool :=
  self.enabled

/-- `GaussianBlurFilter::apply`. -/
def apply (ip : ImgProc) (self : GaussianBlurFilter) (inputFrame : Mat) : Bool × Mat :=
  if !self.isEnabled || inputFrame.empty then
    (false, inputFrame.clone)
  else
    match ip.gaussianBlur inputFrame self.kernelSize self.sigmaX self.sigmaY with
    | some outputFrame => (true, outputFrame)
    | none => (false, inputFrame.clone)

/-- `GaussianBlurFilter::configure`, the block for the key `kernelSize`.
`indefinite` is what the conversion to `int` yields for a value that does not
fit; the increment cannot overflow, since the largest `int` is odd. -/
def configureKernelSize (indefinite : Int) (params : Params) (r : Bool × GaussianBlurFilter) :
    Bool × GaussianBlurFilter :=
  match params "kernelSize" with
  | some value =>
    let newSize := staticCastInt indefinite value
    let newSize := if Int.tmod newSize 2 = 0 then newSize + 1 else newSize
    if newSize > 0 then (true, { r.2 with kernelSize := newSize }) else r
  | none => r

/-- `GaussianBlurFilter::configure`, the block for the key `sigmaX`. -/
def configureSigmaX (params : Params) (r : Bool × GaussianBlurFilter) :
    Bool × GaussianBlurFilter :=
  match params "sigmaX" with
  | some newSigmaX => if newSigmaX > 0 then (true, { r.2 with sigmaX := newSigmaX }) else r
  | none => r

/-- `GaussianBlurFilter::configure`, the block for the key `sigmaY`. -/
def configureSigmaY (params : Params) (r : Bool × GaussianBlurFilter) :
    Bool × GaussianBlurFilter :=
  match params "sigmaY" with
  | some newSigmaY => if newSigmaY > 0 then (true, { r.2 with sigmaY := newSigmaY }) else r
  | none => r

/-- `GaussianBlurFilter::configure`: the returned `changed` and the filter
afterwards; `indefinite` as in `configureKernelSize`. -/
def configure (indefinite : Int) (self : GaussianBlurFilter) (params : Params) :
    Bool × GaussianBlurFilter :=
  configureSigmaY params
    (configureSigmaX params (configureKernelSize indefinite params (false, self)))

/-- The filter as the chain sees it through the base class. -/
def toFilter (ip : ImgProc) (self : GaussianBlurFilter) : Filter :=
  { enabled := self.enabled, apply := self.apply ip }

end GaussianBlurFilter

/-- Data members of `class EdgeDetectionFilter` with the inherited `enabled`;
the default values are those of the default constructor. -/
structure EdgeDetectionFilter where
  enabled : Bool := true
  threshold1 : ℚ := 100
  threshold2 : ℚ := 200
  apertureSize : Int := 3

namespace EdgeDetectionFilter

/-- The constructor `EdgeDetectionFilter::EdgeDetectionFilter()`. -/
def create : EdgeDetectionFilter :=
  {}

/-- The constructor `EdgeDetectionFilter(double threshold1, double threshold2, int apertureSize)`. -/
def construct (threshold1 threshold2 : ℚ) (apertureSize : Int) : EdgeDetectionFilter :=
  let self : EdgeDetectionFilter :=
    { threshold1 := threshold1, threshold2 := threshold2, apertureSize := apertureSize }
  if apertureSize ≠ 3 ∧ apertureSize ≠ 5 ∧ apertureSize ≠ 7 then
    { self with apertureSize := 3 }
  else
    self

/-- `Filter::isEnabled`, inherited. -/
def isEnabled (self : EdgeDetectionFilter) : Bool :=
  self.enabled

/-- `EdgeDetectionFilter::apply`, the body of the `try` block: the frame left
in `outputFrame`, or `none` when one of the OpenCV calls throws. -/
def detect (ip : ImgProc) (self : EdgeDetectionFilter) (inputFrame : Mat) : Option Mat :=
  let grayFrame :=
    if inputFrame.channels = 3 then ip.cvtColor inputFrame ColorCode.BGR2GRAY
    else some inputFrame.clone
  match grayFrame with
  | none => none
  | some gray =>
    match ip.canny gray self.threshold1 self.threshold2 self.apertureSize with
    | none => none
    | some edges =>
      if inputFrame.channels = 3 then ip.cvtColor edges ColorCode.GRAY2BGR else some edges

/-- `EdgeDetectionFilter::apply`. -/
def apply (ip : ImgProc) (self : EdgeDetectionFilter) (inputFrame : Mat) : Bool × Mat :=
  if !self.isEnabled || inputFrame.empty then
    (false, inputFrame.clone)
  else
    match self.detect ip inputFrame with
    | some outputFrame => (true, outputFrame)
    | none => (false, inputFrame.clone)

/-- `EdgeDetectionFilter::configure`, the block for the key `threshold1`. -/
def configureThreshold1 (params : Params) (r : Bool × EdgeDetectionFilter) :
    Bool × EdgeDetectionFilter :=
  match params "threshold1" with
  | some newThreshold1 =>
    if newThreshold1 ≥ 0 then (true, { r.2 with threshold1 := newThreshold1 }) else r
  | none => r

/-- `EdgeDetectionFilter::configure`, the block for the key `threshold2`. -/
def configureThreshold2 (params : Params) (r : Bool × EdgeDetectionFilter) :
    Bool × EdgeDetectionFilter :=
  match params "threshold2" with
  | some newThreshold2 =>
    if newThreshold2 ≥ 0 then (true, { r.2 with threshold2 := newThreshold2 }) else r
  | none => r

/-- `EdgeDetectionFilter::configure`, the block for the key `apertureSize`. -/
def configureApertureSize (params : Params) (r : Bool × EdgeDetectionFilter) :
    Bool × EdgeDetectionFilter :=
  match params "apertureSize" with
  | some value =>
    let newApertureSize := truncToInt value
    if newApertureSize = 3 ∨ newApertureSize = 5 ∨ newApertureSize = 7 then
      (true, { r.2 with apertureSize := newApertureSize })
    else r
  | none => r

/-- `EdgeDetectionFilter::configure`: the returned `changed` and the filter afterwards. -/
def configure (self : EdgeDetectionFilter) (params : Params) : Bool × EdgeDetectionFilter :=
  configureApertureSize params
    (configureThreshold2 params (configureThreshold1 params (false, self)))

/-- The filter as the chain sees it through the base class. -/
def toFilter (ip : ImgProc) (self : EdgeDetectionFilter) : Filter :=
  { enabled := self.enabled, apply := self.apply ip }

end EdgeDetectionFilter

/-! ## Properties of a state of the running system -/

/-- Whether the decode task has passed its test for space in the queue and
has not yet pushed the frame. -/
def CapturePc.pastSpaceTest : CapturePc → Bool
  | CapturePc.read => true
  | CapturePc.position _ => true
  | CapturePc.push _ => true
  | _ => false

/-- The frame the decode task has read and not yet pushed, if any. -/
def CapturePc.pending : CapturePc → List Mat
  | CapturePc.position frame => [frame]
  | CapturePc.push frame => [frame]
  | _ => []

/-- The output of the frame the filter task has taken from the queue and not
yet published, if any, for the filter chain of `vp`. -/
def FilterPc.inFlight (vp : VideoProcessor) : FilterPc → List Mat
  | FilterPc.apply inputFrame => [vp.applyFilters inputFrame]
  | FilterPc.write outputFrame => [outputFrame]
  | FilterPc.publish outputFrame => [outputFrame]
  | _ => []

/-- No stop has been requested, the queue holds at most `MAX_QUEUE_SIZE`
frames, and fewer while the decode task is between its test for space and its
push. -/
def Pipeline.QueueBounded (p : Pipeline) : Prop :=
  p.vp.stopRequested = false ∧ p.joining = false ∧
  p.vp.frameQueue.length ≤ MAX_QUEUE_SIZE ∧
  (p.decode.pastSpaceTest = true → p.vp.frameQueue.length < MAX_QUEUE_SIZE)

/-- The bookkeeping of a run that started at `start` and saw only steps of
the tasks, pauses and resumes: every frame read is taken, queued or about to
be pushed, in this order; every frame taken is published or in flight, in
this order; the chain is the one of `start`; and the frames read are those
that successive reads yield from the capture of `start`. -/
def Pipeline.InOrder (cv : OpenCV) (start p : Pipeline) : Prop :=
  p.readLog = p.popLog ++ p.vp.frameQueue ++ p.decode.pending ∧
  p.popLog.map start.vp.applyFilters = p.published ++ p.filter.inFlight start.vp ∧
  p.vp.filters = start.vp.filters ∧
  (readFrames cv p.readLog.length start.vp.videoCapture).1 = p.readLog ∧
  (p.decode ≠ CapturePc.done →
    (readFrames cv p.readLog.length start.vp.videoCapture).2 = p.vp.videoCapture)

/-- The system right after `startProcessing` has started the two threads:
both are at the head of their loops, the queue and the histories are empty. -/
def Pipeline.JustStarted (p : Pipeline) : Prop :=
  p.decode = CapturePc.loopTest ∧ p.filter = FilterPc.loopTest ∧ p.vp.frameQueue = [] ∧
  p.readLog = [] ∧ p.popLog = [] ∧ p.published = []

/-! ## Sample values used to instantiate the theorems -/

/-- A one-row grey frame. -/
def sampleFrame : Mat :=
  { rows := 1, cols := 3, channels := 1, data := [10, 20, 30] }

/-- An opened capture on a stream of three frames. -/
def sampleCapture : VideoCapture :=
  { opened := true, frameWidth := 3, frameHeight := 1, frameCount := 3, fps := 30,
    posFrames := 0, frames := [sampleFrame, sampleFrame, sampleFrame] }

/-- An OpenCV in which the only readable file is `sample_video.mp4`, a
reposition is accepted inside the stream, a read yields the frame at the
current position, and a writer opens on every non-empty file name with a
positive frame size. -/
def sampleCv : OpenCV :=
  { captureOpen := fun _ filename =>
      if filename = "sample_video.mp4" then (true, sampleCapture) else (false, {})
    captureSet := fun c pos =>
      if c.opened && decide (0 ≤ pos) && decide (pos < c.frameCount) then
        (true, { c with posFrames := pos })
      else
        (false, c)
    captureRead := fun c =>
      if c.opened && decide (0 ≤ c.posFrames) then
        match c.frames[c.posFrames.toNat]? with
        | some frame => (some frame, { c with posFrames := c.posFrames + 1 })
        | none => (none, c)
      else
        (none, c)
    writerOpen := fun _ filename _ _ width height =>
      if filename.isEmpty || decide (width ≤ 0) || decide (height ≤ 0) then
        (false, {})
      else
        (true, { opened := true }) }

/-- The controller after `openVideo("sample_video.mp4")` and `startProcessing()`. -/
def playing : VideoProcessor :=
  (VideoProcessor.create.openVideo sampleCv "sample_video.mp4").2.startProcessing.2

/-- The running controller with one decoded frame waiting in the queue. -/
def playingQueued : VideoProcessor :=
  { playing with frameQueue := [sampleFrame], currentFrame := 1 }

/-- The running controller, paused, with an output file set. -/
def recordingPaused : VideoProcessor :=
  (playing.setOutputFile sampleCv "output_video.mp4" 0 30).2.pauseProcessing

/-- The running controller after `openVideo` was called on a file that cannot
be opened: the previous handle is released and the processing flag still set. -/
def playingUnopened : VideoProcessor :=
  (playing.openVideo sampleCv "missing.mp4").2

/-- The controller after the stream has run to its end: the decode task has
read all three frames, found no further one, set `videoEnded` and returned;
the filter task has consumed the queue. -/
def playedToEnd : VideoProcessor :=
  { playing with
    videoCapture := { sampleCapture with posFrames := 3 }
    currentFrame := 3
    videoEnded := true
    captureThread := WorkerThread.finished
    latestFrame := sampleFrame }

/-- A controller that was never started: a video is opened, an output file is
set and `pauseProcessing()` is called. -/
def neverStarted : VideoProcessor :=
  ((VideoProcessor.create.openVideo sampleCv "sample_video.mp4").2.setOutputFile sampleCv
    "output_video.mp4" 0 30).2.pauseProcessing

/-- An enabled filter that inverts every pixel. -/
def invertFilter : Filter :=
  { enabled := true
    apply := fun m => (true, { m with data := m.data.map (fun p => 255 - p) }) }

/-- An enabled filter that halves every pixel. -/
def halveFilter : Filter :=
  { enabled := true
    apply := fun m => (true, { m with data := m.data.map (fun p => p / 2) }) }

/-- A controller whose chain holds three filters, the middle one disabled. -/
def threeFilters : VideoProcessor :=
  { filters := [invertFilter, halveFilter.setEnabled false, halveFilter] }

/-- A controller whose chain holds a single disabled filter. -/
def oneDisabled : VideoProcessor :=
  VideoProcessor.create.addFilter (some (invertFilter.setEnabled false))

/-- A one-pixel frame holding the number `n`. -/
def numberedFrame (n : Nat) : Mat :=
  { rows := 1, cols := 1, channels := 1, data := [n] }

/-- An opened capture on a stream of twelve frames, numbered in order. -/
def longCapture : VideoCapture :=
  { opened := true, frameWidth := 1, frameHeight := 1, frameCount := 12, fps := 30,
    posFrames := 0, frames := (List.range 12).map numberedFrame }

/-- The sample OpenCV, in which the only readable file is `long_video.mp4`. -/
def longCv : OpenCV :=
  { sampleCv with
    captureOpen := fun _ filename =>
      if filename = "long_video.mp4" then (true, longCapture) else (false, {}) }

/-- The system after `openVideo("long_video.mp4")` and `startProcessing()`:
both tasks are at the head of their loops. -/
def longPlaying : Pipeline :=
  Pipeline.run longCv [Action.openVideo "long_video.mp4", Action.startProcessing]
    Pipeline.create

/-- The system after the decode task alone has run for 63 steps: it has read
and queued ten frames in ten passes of six steps and then, finding the queue
full, entered the wait for space.  The filter task has not been scheduled. -/
def blockedOnFullQueue : Pipeline :=
  Pipeline.run longCv (List.replicate 63 Action.decode) longPlaying

/-- The system after `stopProcessing()` has then signalled the stop and the
decode task has run until it returned. -/
def stoppedOnFullQueue : Pipeline :=
  Pipeline.run longCv (Action.stopRequest :: List.replicate 5 Action.decode)
    blockedOnFullQueue

/-- The system after `openVideo("sample_video.mp4")` and `startProcessing()`. -/
def samplePlaying : Pipeline :=
  Pipeline.run sampleCv [Action.openVideo "sample_video.mp4", Action.startProcessing]
    Pipeline.create

/-- The system after the decode task has read the three frames of the sample
stream in three passes of six steps, found no fourth one and returned, while
the filter task has taken one frame from the queue. -/
def sampleEnded : Pipeline :=
  Pipeline.run sampleCv
    (List.replicate 6 Action.decode ++ [Action.filter false 0, Action.filter false 0]
      ++ List.replicate 16 Action.decode)
    samplePlaying

/-- A run of the sample system in which the pipeline is paused and resumed
while both tasks take steps. -/
def pausedRun : List Action :=
  List.replicate 6 Action.decode ++
    [Action.pauseProcessing, Action.filter false 0, Action.filter false 0, Action.decode,
      Action.decode, Action.decode, Action.filter false 0, Action.filter false 0,
      Action.filter false 0, Action.resumeProcessing] ++
    List.replicate 8 Action.decode

/-- The steps that lead a freshly constructed controller to `sampleEnded`. -/
def endedRun : List Action :=
  [Action.openVideo "sample_video.mp4", Action.startProcessing] ++
    (List.replicate 6 Action.decode ++ [Action.filter false 0, Action.filter false 0]
      ++ List.replicate 16 Action.decode)

/-! ## Publishes of the filter task, as seen by the frame-rate estimate -/

/-- Whether a publish at clock reading `now` yields a frame-rate measurement:
a previous publish time is stored and the difference is a positive number of
whole milliseconds. -/
def measured (self : VideoProcessor) (now : Int) : Bool :=
  decide (0 < self.lastFrameTime) && decide (0 < elapsedMilliseconds self.lastFrameTime now)

/-- The controller after publishes at the given clock readings. -/
def publishes (self : VideoProcessor) (times : List Int) : VideoProcessor :=
  times.foldl VideoProcessor.updateFrameRate self

/-- Whether none of the publishes at the given clock readings yields a measurement. -/
def unmeasured : VideoProcessor → List Int → Bool
  | _, [] => true
  | self, now :: times => !measured self now && unmeasured (self.updateFrameRate now) times

/-- The filter task about to update the frame rate, with an estimate of 20
frames per second and the last publish at 5 ms. -/
def aboutToMeasure : Pipeline :=
  { samplePlaying with
    vp := { samplePlaying.vp with currentFps := 20, lastFrameTime := 5000000 }
    filter := FilterPc.frameRate }

/-! ## Parameter maps a filter accepts -/

/-- An odd number as it is, an even number raised by one. -/
def roundUpToOdd (k : Int) : Int :=
  if Int.tmod k 2 = 0 then k + 1 else k

/-- Whether the map holds a kernel size that `GaussianBlurFilter::configure`
stores: converted to `int` and raised by one if even, it is positive. -/
def GaussianBlurFilter.acceptsKernelSize (indefinite : Int) (params : Params) : Bool :=
  match params "kernelSize" with
  | some value => decide (0 < roundUpToOdd (staticCastInt indefinite value))
  | none => false

/-- Whether the map holds, under `key`, a positive value. -/
def acceptsPositive (params : Params) (key : String) : Bool :=
  match params key with
  | some value => decide (0 < value)
  | none => false

/-- Whether the map holds, under `key`, a value that is not negative. -/
def acceptsNonNegative (params : Params) (key : String) : Bool :=
  match params key with
  | some value => decide (0 ≤ value)
  | none => false

/-- Whether the map holds an aperture size whose integer part is 3, 5 or 7. -/
def EdgeDetectionFilter.acceptsApertureSize (params : Params) : Bool :=
  match params "apertureSize" with
  | some value =>
    decide (truncToInt value = 3 ∨ truncToInt value = 5 ∨ truncToInt value = 7)
  | none => false

/-- Whether at least one key recognised by `GaussianBlurFilter::configure`
holds a valid value. -/
def GaussianBlurFilter.accepts (indefinite : Int) (params : Params) : Bool :=
  GaussianBlurFilter.acceptsKernelSize indefinite params || acceptsPositive params "sigmaX" ||
    acceptsPositive params "sigmaY"

/-- Whether at least one key recognised by `EdgeDetectionFilter::configure`
holds a valid value. -/
def EdgeDetectionFilter.accepts (params : Params) : Bool :=
  acceptsNonNegative params "threshold1" || acceptsNonNegative params "threshold2" ||
    EdgeDetectionFilter.acceptsApertureSize params

/-- A parameter map with the single key `key`. -/
def singleParam (key : String) (value : ℚ) : Params :=
  fun k => if k = key then some value else none

/-- A parameter map that asks for `sigmaX = 2`, for the negative
`sigmaY = -1` and, under the unrecognised key `radius`, for 3. -/
def mixedParams : Params :=
  fun k =>
    if k = "sigmaX" then some 2
    else if k = "sigmaY" then some (-1)
    else if k = "radius" then some 3
    else none

/-- A parameter map that asks for the thresholds 50 and 150 and for the
aperture size 4. -/
def edgeParams : Params :=
  fun k =>
    if k = "threshold1" then some 50
    else if k = "threshold2" then some 150
    else if k = "apertureSize" then some 4
    else none

/-- A parameter map that asks for a kernel size beyond the range of `int`. -/
def beyondIntParams : Params :=
  singleParam "kernelSize" 3000000000

/-- An image library whose blur fails on every frame and whose other
operations return their input. -/
def failingBlur : ImgProc :=
  { gaussianBlur := fun _ _ _ _ => none
    canny := fun src _ _ _ => some src
    cvtColor := fun src _ => some src }

/-! ## The play/pause key (`ui/UserInterface.cpp`) -/

/-- The call that `UserInterface::onTogglePlayPause` makes on the processor. -/
inductive ToggleBranch where
  | nothing
  | start
  | resume
  | pause
  deriving DecidableEq, Repr

namespace UserInterface

/-- `UserInterface::onTogglePlayPause`: the processor afterwards.  The
comparison of the `double` frame rate with 0 is exact. -/
def onTogglePlayPause (processor : VideoProcessor) : VideoProcessor :=
  if processor.isProcessing then
    if processor.getCurrentFramePosition = 0 then
      processor.startProcessing.2
    else if processor.getFrameRate = 0 then
      processor.resumeProcessing
    else
      processor.pauseProcessing
  else
    processor

/-- The branch of `UserInterface::onTogglePlayPause` that is taken. -/
def toggleBranch (processor : VideoProcessor) : ToggleBranch :=
  if processor.isProcessing then
    if processor.getCurrentFramePosition = 0 then
      ToggleBranch.start
    else if processor.getFrameRate = 0 then
      ToggleBranch.resume
    else
      ToggleBranch.pause
  else
    ToggleBranch.nothing

end UserInterface

/-! ## The instantaneous rates measured during a run -/

/-- The instantaneous rate `1000 / d` that the step `a` measures in the state
`p`, if it is a step of the filter task at the update of the frame rate and
the publish yields a measurement. -/
def rateMeasuredAt (a : Action) (p : Pipeline) : List ℚ :=
  match a, p.filter with
  | Action.filter _ now, FilterPc.frameRate =>
    if measured p.vp now then
      [1000 / ((elapsedMilliseconds p.vp.lastFrameTime now : Int) : ℚ)]
    else
      []
  | _, _ => []

/-- The instantaneous rates measured during a run from the state `p`, in order. -/
def measuredRates (cv : OpenCV) : List Action → Pipeline → List ℚ
  | [], _ => []
  | a :: rest, p => rateMeasuredAt a p ++ measuredRates cv rest (p.step cv a)

/-- The largest of the given rates, 0 if there is none. -/
def largestRate (rates : List ℚ) : ℚ :=
  rates.foldr max 0

/-- A run of the sample system from construction in which two frames are
decoded, filtered and published, the first at 5 ms and the second at 15 ms,
so that the second publish yields the first measurement. -/
def measuringRun : List Action :=
  [Action.openVideo "sample_video.mp4", Action.startProcessing] ++
    List.replicate 6 Action.decode ++ List.replicate 6 (Action.filter false 5000000) ++
    List.replicate 6 Action.decode ++ List.replicate 6 (Action.filter false 15000000)

/-- A parameter map that asks for the aperture size 5.9. -/
def apertureFivePointNine : Params :=
  singleParam "apertureSize" (59 / 10)

/-! ## Lemmas on frames and on `std::vector::erase` -/

@[simp]
theorem Mat.clone_eq (m : Mat) : m.clone = m := by
  cases m
  rfl

theorem vectorErase_eq_take_drop {α : Type} (l : List α) (i : Nat) :
    vectorErase l i = l.take i ++ l.drop (i + 1) := by
  induction l generalizing i with
  | nil => simp [vectorErase]
  | cons x rest ih =>
    cases i with
    | zero => simp [vectorErase]
    | succ n => simp [vectorErase, ih n]

theorem vectorErase_length {α : Type} (l : List α) (i : Nat) (h : i < l.length) :
    (vectorErase l i).length + 1 = l.length := by
  induction l generalizing i with
  | nil => simp at h
  | cons x rest ih =>
    cases i with
    | zero => simp [vectorErase]
    | succ n =>
      have hn : n < rest.length := by simpa using h
      simp [vectorErase, ih n hn]

theorem vectorErase_get_before {α : Type} (l : List α) (i j : Nat) (h : j < i) :
    (vectorErase l i)[j]? = l[j]? := by
  induction l generalizing i j with
  | nil => simp [vectorErase]
  | cons x rest ih =>
    cases i with
    | zero => omega
    | succ n =>
      cases j with
      | zero => simp [vectorErase]
      | succ m =>
        have hm : m < n := by omega
        simp [vectorErase, ih n m hm]

theorem vectorErase_get_after {α : Type} (l : List α) (i j : Nat) (h : i ≤ j) :
    (vectorErase l i)[j]? = l[j + 1]? := by
  induction l generalizing i j with
  | nil => simp [vectorErase]
  | cons x rest ih =>
    cases i with
    | zero => simp [vectorErase]
    | succ n =>
      cases j with
      | zero => omega
      | succ m =>
        have hm : n ≤ m := by omega
        simp [vectorErase, ih n m hm]

/-! ## The filter chain -/

/-- C1: `removeFilter(index)` returns true exactly when `index` is below the
length of the chain; when it returns false the whole controller state is
unchanged; when it returns true the new chain is the old one with the entry at
`index` erased: it is one shorter, the entries before `index` stay where they
were and each entry behind it moves one place forward, so all other entries
are kept in their relative order, and no other member changes. -/
theorem removeFilter_contract (self : VideoProcessor) (index : Nat) :
    ((self.removeFilter index).1 = true ↔ index < self.filters.length) ∧
    ((self.removeFilter index).1 = false → (self.removeFilter index).2 = self) ∧
    ((self.removeFilter index).1 = true →
      (self.removeFilter index).2.filters.length + 1 = self.filters.length ∧
      (self.removeFilter index).2.filters
        = self.filters.take index ++ self.filters.drop (index + 1) ∧
      (∀ j, j < index → (self.removeFilter index).2.filters[j]? = self.filters[j]?) ∧
      (∀ j, index ≤ j → (self.removeFilter index).2.filters[j]? = self.filters[j + 1]?) ∧
      { (self.removeFilter index).2 with filters := self.filters } = self) := by
  by_cases h : index < self.filters.length
  · simp only [VideoProcessor.removeFilter, h, if_true, true_iff, true_and]
    refine ⟨by simp, fun _ => ⟨vectorErase_length _ _ h, vectorErase_eq_take_drop _ _,
      fun j hj => vectorErase_get_before _ _ _ hj,
      fun j hj => vectorErase_get_after _ _ _ hj, trivial⟩⟩
  · simp [VideoProcessor.removeFilter, h]

/-- C1 instantiated: erasing index 1 of a chain of three succeeds and leaves
the first and the third filter, in that order. -/
theorem removeFilter_contract_witness :
    (threeFilters.removeFilter 1).1 = true ∧
    (threeFilters.removeFilter 1).2.filters.length + 1 = threeFilters.filters.length ∧
    (threeFilters.removeFilter 1).2.filters
      = threeFilters.filters.take 1 ++ threeFilters.filters.drop (1 + 1) :=
  have h := (removeFilter_contract threeFilters 1).2.2 (by decide)
  ⟨by decide, h.1, h.2.1⟩

theorem applyLoop_eq_foldl (chain : List Filter) (temp result : Mat) :
    VideoProcessor.applyLoop chain temp result
      = List.foldl (fun frame f => (f.apply frame).2) temp
          (chain.filter Filter.isEnabled) := by
  induction chain generalizing temp result with
  | nil => simp [VideoProcessor.applyLoop]
  | cons f rest ih =>
    by_cases hf : f.isEnabled = true
    · simp [VideoProcessor.applyLoop, hf, ih]
    · simp [VideoProcessor.applyLoop, hf, ih]

/-- C2: when no filter of the chain is enabled (in particular for the empty
chain), `applyFilters` returns a frame equal to its input, and this remains so
after `addFilter` appends one more disabled filter. -/
theorem applyFilters_identity_when_none_enabled (self : VideoProcessor) (input : Mat)
    (h : ∀ f ∈ self.filters, f.isEnabled = false) :
    self.applyFilters input = input ∧
    ∀ g : Filter, g.isEnabled = false →
      (self.addFilter (some g)).applyFilters input = input := by
  have key : ∀ chain : List Filter, (∀ f ∈ chain, f.isEnabled = false) →
      chain.filter Filter.isEnabled = [] := by
    intro chain hc
    simp only [List.filter_eq_nil_iff]
    intro f hf
    simp [hc f hf]
  constructor
  · simp [VideoProcessor.applyFilters, applyLoop_eq_foldl, key _ h]
  · intro g hg
    have h2 : ∀ f ∈ self.filters ++ [g], f.isEnabled = false := by
      intro f hf
      rcases List.mem_append.mp hf with hf | hf
      · exact h f hf
      · simp at hf
        simpa [hf] using hg
    simp [VideoProcessor.applyFilters, VideoProcessor.addFilter, applyLoop_eq_foldl, key _ h2]

/-- C2 instantiated: a controller that was given one disabled filter returns
the sample frame unchanged. -/
theorem applyFilters_identity_when_none_enabled_witness :
    oneDisabled.filters.length = 1 ∧
    oneDisabled.applyFilters sampleFrame = sampleFrame :=
  have h : ∀ f ∈ oneDisabled.filters, f.isEnabled = false := by
    intro f hf
    simp [oneDisabled, VideoProcessor.addFilter, VideoProcessor.create] at hf
    simp [hf, Filter.isEnabled, Filter.setEnabled]
  ⟨by decide, (applyFilters_identity_when_none_enabled oneDisabled sampleFrame h).1⟩

/-- C3: `applyFilters` is the left fold, in chain order, of the `apply`
functions of exactly the enabled filters, started at the input frame: every
enabled filter is applied to the output of the enabled filter before it, and
disabled filters contribute nothing. -/
theorem applyFilters_eq_foldl_enabled (self : VideoProcessor) (input : Mat) :
    self.applyFilters input
      = List.foldl (fun frame f => (f.apply frame).2) input
          (self.filters.filter Filter.isEnabled) := by
  simp [VideoProcessor.applyFilters, applyLoop_eq_foldl]

/-! ## Seeking -/

/-- C4: for a frame index below zero or not below `totalFrames`,
`seekToFrame` returns false and the controller state after the call is the
state before it; in particular the pause flag, the queue, the current
position and the position of the source are as before. -/
theorem seekToFrame_out_of_range (cv : OpenCV) (self : VideoProcessor) (framePos : Int)
    (h : framePos < 0 ∨ framePos ≥ self.totalFrames) :
    (self.seekToFrame cv framePos).1 = false ∧
    (self.seekToFrame cv framePos).2 = self ∧
    (self.seekToFrame cv framePos).2.paused = self.paused ∧
    (self.seekToFrame cv framePos).2.frameQueue = self.frameQueue ∧
    (self.seekToFrame cv framePos).2.getCurrentFramePosition = self.getCurrentFramePosition ∧
    (self.seekToFrame cv framePos).2.videoCapture.posFrames = self.videoCapture.posFrames := by
  have hr : self.seekToFrame cv framePos = (false, self) := by
    unfold VideoProcessor.seekToFrame
    rw [if_pos h]
  simp [hr]

/-- C4 instantiated: seeking a running three-frame stream to frame 3 fails
and changes nothing, although a frame is waiting in the queue. -/
theorem seekToFrame_out_of_range_witness :
    (playingQueued.seekToFrame sampleCv 3).1 = false ∧
    (playingQueued.seekToFrame sampleCv 3).2 = playingQueued :=
  have h := seekToFrame_out_of_range sampleCv playingQueued 3 (Or.inr (by decide))
  ⟨h.1, h.2.1⟩

/-- C5: for an index with `0 ≤ framePos < totalFrames` on which the source
accepts the reposition, `seekToFrame` returns true; afterwards the queue is
empty, `getCurrentFramePosition()` is `framePos` and the pause flag has the
value it had before the call, and the filter chain, the ended flag and the
processing flag are unchanged. -/
theorem seekToFrame_in_range (cv : OpenCV) (self : VideoProcessor) (framePos : Int)
    (h0 : 0 ≤ framePos) (h1 : framePos < self.totalFrames)
    (hset : (cv.captureSet self.videoCapture framePos).1 = true) :
    (self.seekToFrame cv framePos).1 = true ∧
    (self.seekToFrame cv framePos).2.frameQueue = [] ∧
    (self.seekToFrame cv framePos).2.getCurrentFramePosition = framePos ∧
    (self.seekToFrame cv framePos).2.paused = self.paused ∧
    (self.seekToFrame cv framePos).2.filters = self.filters ∧
    (self.seekToFrame cv framePos).2.videoEnded = self.videoEnded ∧
    (self.seekToFrame cv framePos).2.processing = self.processing := by
  have hn : ¬ (framePos < 0 ∨ framePos ≥ self.totalFrames) := by omega
  unfold VideoProcessor.seekToFrame
  rw [if_neg hn]
  cases hp : self.paused <;>
    simp [VideoProcessor.pauseProcessing, VideoProcessor.resumeProcessing,
      VideoProcessor.getCurrentFramePosition, hset, hp]

/-- C5 instantiated: seeking the running, unpaused controller with a queued
frame to frame 2 succeeds, empties the queue and leaves it unpaused. -/
theorem seekToFrame_in_range_witness :
    (playingQueued.seekToFrame sampleCv 2).1 = true ∧
    (playingQueued.seekToFrame sampleCv 2).2.frameQueue = [] ∧
    (playingQueued.seekToFrame sampleCv 2).2.getCurrentFramePosition = 2 ∧
    (playingQueued.seekToFrame sampleCv 2).2.paused = false :=
  have h := seekToFrame_in_range sampleCv playingQueued 2 (by decide) (by decide) (by decide)
  ⟨h.1, h.2.1, h.2.2.1, h.2.2.2.1⟩

/-! ## Starting -/

/-- C6: when no stream is open, `startProcessing` returns false and the
controller state after the call is the state before it: the processing,
paused and stop-requested flags and the queue are unchanged and neither
thread member has been started. -/
theorem startProcessing_no_stream (self : VideoProcessor)
    (h : self.videoCapture.isOpened = false) :
    self.startProcessing.1 = false ∧
    self.startProcessing.2 = self ∧
    self.startProcessing.2.processing = self.processing ∧
    self.startProcessing.2.paused = self.paused ∧
    self.startProcessing.2.stopRequested = self.stopRequested ∧
    self.startProcessing.2.frameQueue = self.frameQueue ∧
    self.startProcessing.2.captureThread = self.captureThread ∧
    self.startProcessing.2.processingThread = self.processingThread := by
  have hr : self.startProcessing = (false, self) := by
    simp [VideoProcessor.startProcessing, h]
  simp [hr]

/-- C6 instantiated: a freshly constructed controller cannot be started. -/
theorem startProcessing_no_stream_witness :
    VideoProcessor.create.startProcessing.1 = false ∧
    VideoProcessor.create.startProcessing.2 = VideoProcessor.create :=
  have h := startProcessing_no_stream VideoProcessor.create (by decide)
  ⟨h.1, h.2.1⟩

/-- C7, as stated, fails: after `openVideo`, `startProcessing` and an
`openVideo` of a file that cannot be opened, the controller is in a reachable
state with the processing flag set and both tasks started, in which
`startProcessing` returns false. -/
theorem startProcessing_running_returns_false :
    Reachable sampleCv playingUnopened ∧
    playingUnopened.processing = true ∧
    playingUnopened.captureThread = WorkerThread.running ∧
    playingUnopened.startProcessing.1 = false :=
  ⟨Reachable.openVideo _ _ (Reachable.startProcessing _
      (Reachable.openVideo _ _ Reachable.create)),
    by decide, by decide, by decide⟩

/-- C7 amended: with the processing flag set, `startProcessing` leaves the
controller state as it was (the queue is not cleared, the pause flag is not
touched, no thread is started) and returns true exactly when a stream handle
is open. -/
theorem startProcessing_already_running (self : VideoProcessor)
    (h : self.processing = true) :
    self.startProcessing.2 = self ∧
    self.startProcessing.1 = self.videoCapture.isOpened := by
  cases ho : self.videoCapture.opened <;>
    simp [VideoProcessor.startProcessing, VideoCapture.isOpened, h, ho]

/-- C7 amended, instantiated: on the running controller with a queued frame
`startProcessing` returns true and changes nothing. -/
theorem startProcessing_already_running_witness :
    playingQueued.startProcessing.2 = playingQueued ∧
    playingQueued.startProcessing.1 = true :=
  have h := startProcessing_already_running playingQueued (by decide)
  ⟨h.1, h.2.trans (by decide)⟩

/-! ## Opening a stream -/

/-- No path through `openVideo` writes the member `videoEnded`. -/
theorem openVideo_videoEnded (cv : OpenCV) (self : VideoProcessor) (filename : String) :
    (self.openVideo cv filename).2.videoEnded = self.videoEnded := by
  unfold VideoProcessor.openVideo VideoProcessor.closePrevious
  cases ho : self.videoCapture.opened <;>
    cases hr : (cv.captureOpen (VideoProcessor.closePrevious self).videoCapture filename).1 <;>
    simp_all [VideoProcessor.closePrevious, VideoCapture.isOpened]

/-- C8 at the failing input: on the controller whose stream has run to its
end, `openVideo` of a readable file returns true and resets the position to 0,
but `hasVideoEnded()` still answers true. -/
theorem openVideo_keeps_videoEnded :
    playedToEnd.hasVideoEnded = true ∧
    (playedToEnd.openVideo sampleCv "sample_video.mp4").1 = true ∧
    (playedToEnd.openVideo sampleCv "sample_video.mp4").2.getCurrentFramePosition = 0 ∧
    (playedToEnd.openVideo sampleCv "sample_video.mp4").2.hasVideoEnded = true := by
  decide

/-- C9 at the failing input: on the running controller `openVideo` releases
the opened handle and installs a new one while the processing flag is set and
both tasks are still running; nothing has stopped or joined them. -/
theorem openVideo_replaces_handle_while_running :
    playing.videoCapture.isOpened = true ∧
    (VideoProcessor.closePrevious playing).videoCapture.isOpened = false ∧
    (VideoProcessor.closePrevious playing).processing = true ∧
    (VideoProcessor.closePrevious playing).captureThread = WorkerThread.running ∧
    (VideoProcessor.closePrevious playing).processingThread = WorkerThread.running ∧
    (playing.openVideo sampleCv "sample_video.mp4").1 = true ∧
    (playing.openVideo sampleCv "sample_video.mp4").2.processing = true ∧
    (playing.openVideo sampleCv "sample_video.mp4").2.captureThread = WorkerThread.running ∧
    (playing.openVideo sampleCv "sample_video.mp4").2.processingThread = WorkerThread.running := by
  decide

/-- In every controller state `openVideo` releases the previous handle if one
is open and installs what the source returns; both at the release and at its
return the processing, pause and stop flags, the queue and the two thread
members are as they were before the call. -/
theorem openVideo_leaves_pipeline (cv : OpenCV) (self : VideoProcessor) (filename : String) :
    (VideoProcessor.closePrevious self).videoCapture.isOpened = false ∧
    (VideoProcessor.closePrevious self).processing = self.processing ∧
    (VideoProcessor.closePrevious self).captureThread = self.captureThread ∧
    (VideoProcessor.closePrevious self).processingThread = self.processingThread ∧
    (self.openVideo cv filename).2.videoCapture
      = (cv.captureOpen (VideoProcessor.closePrevious self).videoCapture filename).2 ∧
    (self.openVideo cv filename).2.processing = self.processing ∧
    (self.openVideo cv filename).2.paused = self.paused ∧
    (self.openVideo cv filename).2.stopRequested = self.stopRequested ∧
    (self.openVideo cv filename).2.frameQueue = self.frameQueue ∧
    (self.openVideo cv filename).2.captureThread = self.captureThread ∧
    (self.openVideo cv filename).2.processingThread = self.processingThread := by
  have hc : (VideoProcessor.closePrevious self).videoCapture.isOpened = false ∧
      (VideoProcessor.closePrevious self).processing = self.processing ∧
      (VideoProcessor.closePrevious self).paused = self.paused ∧
      (VideoProcessor.closePrevious self).stopRequested = self.stopRequested ∧
      (VideoProcessor.closePrevious self).frameQueue = self.frameQueue ∧
      (VideoProcessor.closePrevious self).captureThread = self.captureThread ∧
      (VideoProcessor.closePrevious self).processingThread = self.processingThread := by
    cases ho : self.videoCapture.opened <;>
      simp [VideoProcessor.closePrevious, ho, VideoCapture.release, VideoCapture.isOpened]
  obtain ⟨c1, c2, c3, c4, c5, c6, c7⟩ := hc
  refine ⟨c1, c2, c6, c7, ?_⟩
  unfold VideoProcessor.openVideo
  cases hr : (cv.captureOpen (VideoProcessor.closePrevious self).videoCapture filename).1 <;>
    simp [hr, c2, c3, c4, c5, c6, c7]

/-! ## Stopping -/

/-- C10, as stated, fails for a controller that was never started: after
`stopProcessing` on the freshly constructed controller the stop flag is still
clear, and on a controller with a video opened but not started a pause flag
set and a sink opened before the call are still set and open. -/
theorem stopProcessing_never_started :
    VideoProcessor.create.stopProcessing.stopRequested = false ∧
    neverStarted.processing = false ∧
    neverStarted.stopProcessing.stopRequested = false ∧
    neverStarted.stopProcessing.paused = true ∧
    neverStarted.stopProcessing.videoWriter.isOpened = true := by
  decide

/-- C10 amended: after `stopProcessing`, `isProcessing()` is false in every
state.  When the processing flag was set before the call (running, paused or
ended) the stop flag is set, the pause flag is clear, the output sink is not
open and both thread members have been joined; when it was clear (never
started, or stopped before) the call changes nothing. -/
theorem stopProcessing_effect (self : VideoProcessor) :
    self.stopProcessing.isProcessing = false ∧
    (self.processing = true →
      self.stopProcessing.stopRequested = true ∧
      self.stopProcessing.paused = false ∧
      self.stopProcessing.videoWriter.isOpened = false ∧
      self.stopProcessing.captureThread = WorkerThread.idle ∧
      self.stopProcessing.processingThread = WorkerThread.idle) ∧
    (self.processing = false → self.stopProcessing = self) := by
  cases hp : self.processing
  · simp [VideoProcessor.stopProcessing, VideoProcessor.isProcessing, hp]
  · cases hc : self.captureThread <;> cases hq : self.processingThread <;>
      cases hw : self.videoWriter.opened <;>
      simp [VideoProcessor.stopProcessing, VideoProcessor.isProcessing, hp, hc, hq, hw,
        WorkerThread.joinable, WorkerThread.join, VideoWriter.release, VideoWriter.isOpened]

/-- C10 amended, instantiated: stopping the paused controller that writes to
an output file sets the stop flag, clears the pause flag and closes the sink. -/
theorem stopProcessing_effect_witness :
    recordingPaused.paused = true ∧
    recordingPaused.videoWriter.isOpened = true ∧
    recordingPaused.stopProcessing.stopRequested = true ∧
    recordingPaused.stopProcessing.paused = false ∧
    recordingPaused.stopProcessing.videoWriter.isOpened = false :=
  have h := (stopProcessing_effect recordingPaused).2.1 (by decide)
  ⟨by decide, by decide, h.1, h.2.1, h.2.2.1⟩

/-! ## The frame-rate estimate -/

theorem updateFrameRate_measured (self : VideoProcessor) (now : Int)
    (hlast : 0 < self.lastFrameTime)
    (hd : 0 < elapsedMilliseconds self.lastFrameTime now) :
    (self.updateFrameRate now).currentFps
      = self.currentFps * (9 / 10)
        + 1000 / ((elapsedMilliseconds self.lastFrameTime now : Int) : ℚ) * (1 / 10) := by
  simp [VideoProcessor.updateFrameRate, hlast, hd]

theorem updateFrameRate_unmeasured (self : VideoProcessor) (now : Int)
    (h : self.lastFrameTime ≤ 0 ∨ elapsedMilliseconds self.lastFrameTime now ≤ 0) :
    (self.updateFrameRate now).currentFps = self.currentFps := by
  unfold VideoProcessor.updateFrameRate
  by_cases hlast : self.lastFrameTime > 0
  · have hd : ¬ elapsedMilliseconds self.lastFrameTime now > 0 := by
      rcases h with h | h
      · omega
      · omega
    simp [hlast, hd]
  · simp [hlast]

theorem measured_iff (self : VideoProcessor) (now : Int) :
    measured self now = true
      ↔ 0 < self.lastFrameTime ∧ 0 < elapsedMilliseconds self.lastFrameTime now := by
  simp [measured]

/-- C18: over exact arithmetic, when the filter task is at the update of the
frame rate, a previous publish time is stored and the difference to the clock
reading is a whole number `d > 0` of milliseconds, its step changes the rate
to `rate_old * 0.9 + (1000 / d) * 0.1`; when no previous publish time is
stored or `d` is 0 (or below), the rate is left unchanged.  In both cases the
clock reading becomes the stored publish time. -/
theorem frameRate_step (p : Pipeline) (timeout : Bool) (now : Int)
    (hpc : p.filter = FilterPc.frameRate) :
    (0 < p.vp.lastFrameTime → 0 < elapsedMilliseconds p.vp.lastFrameTime now →
      (p.filterStep timeout now).vp.getFrameRate
        = p.vp.getFrameRate * (9 / 10)
          + 1000 / ((elapsedMilliseconds p.vp.lastFrameTime now : Int) : ℚ) * (1 / 10)) ∧
    (p.vp.lastFrameTime ≤ 0 ∨ elapsedMilliseconds p.vp.lastFrameTime now ≤ 0 →
      (p.filterStep timeout now).vp.getFrameRate = p.vp.getFrameRate) ∧
    (p.filterStep timeout now).vp.lastFrameTime = now := by
  have hs : (p.filterStep timeout now).vp = p.vp.updateFrameRate now := by
    simp [Pipeline.filterStep, hpc]
  rw [hs]
  refine ⟨fun h1 h2 => updateFrameRate_measured p.vp now h1 h2,
    fun h => updateFrameRate_unmeasured p.vp now h, ?_⟩
  simp [VideoProcessor.updateFrameRate]

/-- C18 instantiated: with an estimate of 20 and the last publish at 5 ms, a
publish at 15 ms (`d = 10`) gives `20 * 0.9 + 100 * 0.1 = 28`. -/
theorem frameRate_step_witness :
    elapsedMilliseconds aboutToMeasure.vp.lastFrameTime 15000000 = 10 ∧
    (aboutToMeasure.filterStep false 15000000).vp.getFrameRate = 28 :=
  have hd : elapsedMilliseconds aboutToMeasure.vp.lastFrameTime 15000000 = 10 := by decide
  have h := (frameRate_step aboutToMeasure false 15000000 rfl).1 (by decide) (by decide)
  ⟨hd, by
    rw [h, hd]
    simp only [VideoProcessor.getFrameRate, aboutToMeasure]
    norm_num⟩

/-- C19, as stated, fails: on a freshly constructed controller the first
publish (at 5 ms) yields no measurement, the second (at 15 ms) yields the
first one with `d = 10`, and afterwards `getFrameRate()` is 10, not the
instantaneous rate `1000 / 10 = 100`. -/
theorem first_measurement_not_seeded :
    unmeasured VideoProcessor.create [5000000] = true ∧
    measured (publishes VideoProcessor.create [5000000]) 15000000 = true ∧
    elapsedMilliseconds (publishes VideoProcessor.create [5000000]).lastFrameTime 15000000
      = 10 ∧
    ((publishes VideoProcessor.create [5000000]).updateFrameRate 15000000).getFrameRate = 10 ∧
    ((publishes VideoProcessor.create [5000000]).updateFrameRate 15000000).getFrameRate
      ≠ 1000 / 10 := by
  have h1 : unmeasured VideoProcessor.create [5000000] = true := by decide
  have h2 : measured (publishes VideoProcessor.create [5000000]) 15000000 = true := by decide
  have h3 : elapsedMilliseconds (publishes VideoProcessor.create [5000000]).lastFrameTime
      15000000 = 10 := by decide
  have hm := (measured_iff _ _).mp h2
  have h4 : ((publishes VideoProcessor.create [5000000]).updateFrameRate 15000000).getFrameRate
      = 10 := by
    unfold VideoProcessor.getFrameRate
    rw [updateFrameRate_measured _ _ hm.1 hm.2, h3]
    have h0 : (publishes VideoProcessor.create [5000000]).currentFps = 0 := by
      simp [publishes, VideoProcessor.updateFrameRate, VideoProcessor.create]
    rw [h0]
    norm_num
  refine ⟨h1, h2, h3, h4, ?_⟩
  rw [h4]
  norm_num

theorem unmeasured_currentFps (self : VideoProcessor) (times : List Int)
    (h : unmeasured self times = true) :
    (publishes self times).currentFps = self.currentFps := by
  induction times generalizing self with
  | nil => rfl
  | cons now rest ih =>
    simp only [unmeasured, Bool.and_eq_true, Bool.not_eq_true'] at h
    have hnot : ¬ (0 < self.lastFrameTime ∧ 0 < elapsedMilliseconds self.lastFrameTime now) := by
      rw [← measured_iff]
      simp [h.1]
    have hstep : (self.updateFrameRate now).currentFps = self.currentFps :=
      updateFrameRate_unmeasured self now (by omega)
    have := ih (self.updateFrameRate now) h.2
    simpa [publishes, hstep] using this

/-- C19 amended: the first measurement is blended against the initial
estimate 0 like every later one.  Starting from a freshly constructed
controller, after publishes that yield no measurement, the first publish that
yields one with a difference of `d > 0` whole milliseconds leaves
`getFrameRate()` at `(1000 / d) * 0.1`, a tenth of the instantaneous rate. -/
theorem first_measurement_blended (times : List Int) (now : Int)
    (hnone : unmeasured VideoProcessor.create times = true)
    (hfirst : measured (publishes VideoProcessor.create times) now = true) :
    0 < elapsedMilliseconds (publishes VideoProcessor.create times).lastFrameTime now ∧
    ((publishes VideoProcessor.create times).updateFrameRate now).getFrameRate
      = 1000 / ((elapsedMilliseconds (publishes VideoProcessor.create times).lastFrameTime
          now : Int) : ℚ) * (1 / 10) := by
  have hm := (measured_iff _ _).mp hfirst
  refine ⟨hm.2, ?_⟩
  unfold VideoProcessor.getFrameRate
  rw [updateFrameRate_measured _ _ hm.1 hm.2, unmeasured_currentFps _ _ hnone]
  simp [VideoProcessor.create]

/-- C19 amended, instantiated: publishes at 5 ms, 5.4 ms and 25 ms on a
fresh controller; the third yields the first measurement (`d = 19`). -/
theorem first_measurement_blended_witness :
    0 < elapsedMilliseconds
      (publishes VideoProcessor.create [5000000, 5400000]).lastFrameTime 25000000 ∧
    ((publishes VideoProcessor.create [5000000, 5400000]).updateFrameRate
        25000000).getFrameRate
      = 1000 / ((elapsedMilliseconds
          (publishes VideoProcessor.create [5000000, 5400000]).lastFrameTime
          25000000 : Int) : ℚ) * (1 / 10) :=
  first_measurement_blended [5000000, 5400000] 25000000 (by decide) (by decide)

/-! ## Configuration of the two filters -/

theorem truncToInt_intCast (k : Int) : truncToInt (k : ℚ) = k := by
  unfold truncToInt
  split <;> simp

theorem tmod_two_eq_zero_iff_even (k : Int) : Int.tmod k 2 = 0 ↔ Even k := by
  rw [← Int.dvd_iff_tmod_eq_zero, even_iff_two_dvd]

theorem tmod_two_ne_zero_iff_odd (k : Int) : Int.tmod k 2 ≠ 0 ↔ Odd k := by
  rw [← Int.not_even_iff_odd, ← tmod_two_eq_zero_iff_even]

theorem staticCastInt_of_fits (indefinite : Int) (x : ℚ)
    (hlow : INT_MIN ≤ truncToInt x) (hhigh : truncToInt x ≤ INT_MAX) :
    staticCastInt indefinite x = truncToInt x := by
  unfold staticCastInt
  rw [if_pos ⟨hlow, hhigh⟩]

theorem staticCastInt_of_beyond (indefinite : Int) (x : ℚ)
    (h : truncToInt x < INT_MIN ∨ INT_MAX < truncToInt x) :
    staticCastInt indefinite x = indefinite := by
  unfold staticCastInt
  rw [if_neg (by omega)]

theorem staticCastInt_range (indefinite : Int) (x : ℚ)
    (hlow : INT_MIN ≤ indefinite) (hhigh : indefinite ≤ INT_MAX) :
    INT_MIN ≤ staticCastInt indefinite x ∧ staticCastInt indefinite x ≤ INT_MAX := by
  unfold staticCastInt
  split
  · rename_i h
    exact h
  · exact ⟨hlow, hhigh⟩

/-- The test of the aperture size in `EdgeDetectionFilter::configure` comes
out the same for the conversion to the 32-bit `int` as for the integer part,
as long as the processor's value for a conversion that does not fit is not
itself 3, 5 or 7. -/
theorem staticCastInt_aperture (indefinite : Int) (x : ℚ)
    (h : indefinite ≠ 3 ∧ indefinite ≠ 5 ∧ indefinite ≠ 7) :
    (staticCastInt indefinite x = 3 ∨ staticCastInt indefinite x = 5 ∨
        staticCastInt indefinite x = 7)
      ↔ (truncToInt x = 3 ∨ truncToInt x = 5 ∨ truncToInt x = 7) := by
  unfold staticCastInt
  split
  · rfl
  · rename_i hfit
    have hmin : INT_MIN = -2147483648 := rfl
    have hmax : INT_MAX = 2147483647 := rfl
    constructor
    · intro hc
      omega
    · intro ht
      omega

theorem roundUpToOdd_of_even (k : Int) (h : Even k) : roundUpToOdd k = k + 1 := by
  simp [roundUpToOdd, (tmod_two_eq_zero_iff_even k).mpr h]

theorem roundUpToOdd_of_odd (k : Int) (h : Odd k) : roundUpToOdd k = k := by
  simp [roundUpToOdd, (tmod_two_ne_zero_iff_odd k).mpr h]

theorem roundUpToOdd_odd (k : Int) : Odd (roundUpToOdd k) := by
  by_cases h : Even k
  · rw [roundUpToOdd_of_even k h]
    exact h.add_one
  · have ho := Int.not_even_iff_odd.mp h
    rw [roundUpToOdd_of_odd k ho]
    exact ho

theorem roundUpToOdd_range (k : Int) (hlow : INT_MIN ≤ k) (hhigh : k ≤ INT_MAX) :
    INT_MIN ≤ roundUpToOdd k ∧ roundUpToOdd k ≤ INT_MAX := by
  by_cases h : Even k
  · rw [roundUpToOdd_of_even k h]
    have hne : k ≠ INT_MAX := by
      intro he
      rw [he] at h
      exact absurd h (by decide)
    constructor <;> omega
  · rw [roundUpToOdd_of_odd k (Int.not_even_iff_odd.mp h)]
    exact ⟨hlow, hhigh⟩

theorem configureKernelSize_eq (indefinite : Int) (params : Params) (self : GaussianBlurFilter) :
    GaussianBlurFilter.configureKernelSize indefinite params (false, self)
      = match params "kernelSize" with
        | some value =>
          if 0 < roundUpToOdd (staticCastInt indefinite value) then
            (true, { self with kernelSize := roundUpToOdd (staticCastInt indefinite value) })
          else (false, self)
        | none => (false, self) := by
  unfold GaussianBlurFilter.configureKernelSize roundUpToOdd
  cases params "kernelSize" <;> simp

theorem GaussianBlurFilter.configure_kernelSize (indefinite : Int) (self : GaussianBlurFilter)
    (params : Params) :
    (self.configure indefinite params).2.kernelSize
      = (GaussianBlurFilter.configureKernelSize indefinite params (false, self)).2.kernelSize ∧
    ((GaussianBlurFilter.configureKernelSize indefinite params (false, self)).1 = true →
      (self.configure indefinite params).1 = true) := by
  unfold GaussianBlurFilter.configure GaussianBlurFilter.configureSigmaY
    GaussianBlurFilter.configureSigmaX
  cases params "sigmaX" <;> cases params "sigmaY" <;> simp <;> split_ifs <;> simp_all

theorem gaussianBlur_configure_fields (indefinite : Int) (self : GaussianBlurFilter)
    (params : Params) :
    (self.configure indefinite params).1 = GaussianBlurFilter.accepts indefinite params ∧
    (∀ value : ℚ, params "kernelSize" = some value →
      0 < roundUpToOdd (staticCastInt indefinite value) →
      (self.configure indefinite params).2.kernelSize
        = roundUpToOdd (staticCastInt indefinite value)) ∧
    (GaussianBlurFilter.acceptsKernelSize indefinite params = false →
      (self.configure indefinite params).2.kernelSize = self.kernelSize) ∧
    (∀ value : ℚ, params "sigmaX" = some value → 0 < value →
      (self.configure indefinite params).2.sigmaX = value) ∧
    (acceptsPositive params "sigmaX" = false →
      (self.configure indefinite params).2.sigmaX = self.sigmaX) ∧
    (∀ value : ℚ, params "sigmaY" = some value → 0 < value →
      (self.configure indefinite params).2.sigmaY = value) ∧
    (acceptsPositive params "sigmaY" = false →
      (self.configure indefinite params).2.sigmaY = self.sigmaY) ∧
    (self.configure indefinite params).2.enabled = self.enabled := by
  unfold GaussianBlurFilter.configure GaussianBlurFilter.configureSigmaY
    GaussianBlurFilter.configureSigmaX
  rw [configureKernelSize_eq]
  unfold GaussianBlurFilter.accepts GaussianBlurFilter.acceptsKernelSize acceptsPositive
  cases params "kernelSize" <;> cases params "sigmaX" <;> cases params "sigmaY" <;>
    simp <;> split_ifs <;> simp_all

theorem edgeDetection_configure_fields (self : EdgeDetectionFilter) (params : Params) :
    (self.configure params).1 = EdgeDetectionFilter.accepts params ∧
    (∀ value : ℚ, params "threshold1" = some value → 0 ≤ value →
      (self.configure params).2.threshold1 = value) ∧
    (acceptsNonNegative params "threshold1" = false →
      (self.configure params).2.threshold1 = self.threshold1) ∧
    (∀ value : ℚ, params "threshold2" = some value → 0 ≤ value →
      (self.configure params).2.threshold2 = value) ∧
    (acceptsNonNegative params "threshold2" = false →
      (self.configure params).2.threshold2 = self.threshold2) ∧
    (∀ value : ℚ, params "apertureSize" = some value →
      (truncToInt value = 3 ∨ truncToInt value = 5 ∨ truncToInt value = 7) →
      (self.configure params).2.apertureSize = truncToInt value) ∧
    (EdgeDetectionFilter.acceptsApertureSize params = false →
      (self.configure params).2.apertureSize = self.apertureSize) ∧
    (self.configure params).2.enabled = self.enabled := by
  unfold EdgeDetectionFilter.configure EdgeDetectionFilter.configureApertureSize
    EdgeDetectionFilter.configureThreshold2 EdgeDetectionFilter.configureThreshold1
    EdgeDetectionFilter.accepts EdgeDetectionFilter.acceptsApertureSize acceptsNonNegative
  cases params "threshold1" <;> cases params "threshold2" <;> cases params "apertureSize" <;>
    simp <;> split_ifs <;> simp_all <;> (intros; omega)

theorem gaussianBlur_configure_false (indefinite : Int) (self : GaussianBlurFilter)
    (params : Params) (h : (self.configure indefinite params).1 = false) :
    (self.configure indefinite params).2 = self := by
  revert h
  unfold GaussianBlurFilter.configure GaussianBlurFilter.configureSigmaY
    GaussianBlurFilter.configureSigmaX
  rw [configureKernelSize_eq]
  cases params "kernelSize" <;> cases params "sigmaX" <;> cases params "sigmaY" <;>
    simp <;> split_ifs <;> simp_all

theorem edgeDetection_configure_false (self : EdgeDetectionFilter) (params : Params)
    (h : (self.configure params).1 = false) : (self.configure params).2 = self := by
  revert h
  unfold EdgeDetectionFilter.configure EdgeDetectionFilter.configureApertureSize
    EdgeDetectionFilter.configureThreshold2 EdgeDetectionFilter.configureThreshold1
  cases params "threshold1" <;> cases params "threshold2" <;> cases params "apertureSize" <;>
    simp <;> split_ifs <;> simp_all

theorem staticCastInt_threeBillion (indefinite : Int) :
    staticCastInt indefinite 3000000000 = indefinite := by
  apply staticCastInt_of_beyond
  have h : truncToInt (3000000000 : ℚ) = 3000000000 := by
    have h0 := truncToInt_intCast 3000000000
    simpa using h0
  rw [h]
  exact Or.inr (by decide)

/-- C14, as stated, fails: a valid value equal to the stored one makes
`configure` return true although no stored parameter differs afterwards, for
the edge-detection filter (`threshold1 = 100`) and for the Gaussian blur
filter (`sigmaX = 1.5`). -/
theorem configure_true_without_change :
    (EdgeDetectionFilter.create.configure (singleParam "threshold1" 100)).1 = true ∧
    (EdgeDetectionFilter.create.configure (singleParam "threshold1" 100)).2
      = EdgeDetectionFilter.create ∧
    (GaussianBlurFilter.create.configure INT_MIN (singleParam "sigmaX" (3 / 2))).1 = true ∧
    (GaussianBlurFilter.create.configure INT_MIN (singleParam "sigmaX" (3 / 2))).2
      = GaussianBlurFilter.create := by
  refine ⟨?_, ?_, ?_, ?_⟩ <;>
    simp [EdgeDetectionFilter.configure, EdgeDetectionFilter.configureApertureSize,
      EdgeDetectionFilter.configureThreshold2, EdgeDetectionFilter.configureThreshold1,
      EdgeDetectionFilter.create, GaussianBlurFilter.configure,
      GaussianBlurFilter.configureSigmaY, GaussianBlurFilter.configureSigmaX,
      GaussianBlurFilter.configureKernelSize, GaussianBlurFilter.create, singleParam]

/-- C14 amended: for both filters and every parameter map, `configure`
returns true exactly when at least one recognised key holds a valid value,
and it stores every such value, whether or not it differs from the stored
one: a kernel size that, converted to `int` and raised by one if even, is
positive is stored in that form; a positive `sigmaX` or `sigmaY`, a
`threshold1` or `threshold2` that is not negative and an aperture size with
integer part 3, 5 or 7 are stored; a parameter whose key is missing or holds
an invalid value is unchanged, and so is the enabled flag.  When `configure`
returns false every parameter is unchanged, so whenever a stored parameter
differs after the call it has returned true; a map without a valid value
under a recognised key returns false and leaves every parameter unchanged.
`indefinite` is what the conversion to `int` yields for a value that does
not fit. -/
theorem configure_returns_accepted (indefinite : Int) (params : Params) :
    (∀ self : GaussianBlurFilter,
      (self.configure indefinite params).1 = GaussianBlurFilter.accepts indefinite params ∧
      (∀ value : ℚ, params "kernelSize" = some value →
        0 < roundUpToOdd (staticCastInt indefinite value) →
        (self.configure indefinite params).2.kernelSize
          = roundUpToOdd (staticCastInt indefinite value)) ∧
      (GaussianBlurFilter.acceptsKernelSize indefinite params = false →
        (self.configure indefinite params).2.kernelSize = self.kernelSize) ∧
      (∀ value : ℚ, params "sigmaX" = some value → 0 < value →
        (self.configure indefinite params).2.sigmaX = value) ∧
      (acceptsPositive params "sigmaX" = false →
        (self.configure indefinite params).2.sigmaX = self.sigmaX) ∧
      (∀ value : ℚ, params "sigmaY" = some value → 0 < value →
        (self.configure indefinite params).2.sigmaY = value) ∧
      (acceptsPositive params "sigmaY" = false →
        (self.configure indefinite params).2.sigmaY = self.sigmaY) ∧
      (self.configure indefinite params).2.enabled = self.enabled ∧
      ((self.configure indefinite params).1 = false →
        (self.configure indefinite params).2 = self) ∧
      ((self.configure indefinite params).2 ≠ self →
        (self.configure indefinite params).1 = true) ∧
      (GaussianBlurFilter.accepts indefinite params = false →
        (self.configure indefinite params).1 = false ∧
        (self.configure indefinite params).2 = self)) ∧
    (∀ self : EdgeDetectionFilter,
      (self.configure params).1 = EdgeDetectionFilter.accepts params ∧
      (∀ value : ℚ, params "threshold1" = some value → 0 ≤ value →
        (self.configure params).2.threshold1 = value) ∧
      (acceptsNonNegative params "threshold1" = false →
        (self.configure params).2.threshold1 = self.threshold1) ∧
      (∀ value : ℚ, params "threshold2" = some value → 0 ≤ value →
        (self.configure params).2.threshold2 = value) ∧
      (acceptsNonNegative params "threshold2" = false →
        (self.configure params).2.threshold2 = self.threshold2) ∧
      (∀ value : ℚ, params "apertureSize" = some value →
        (truncToInt value = 3 ∨ truncToInt value = 5 ∨ truncToInt value = 7) →
        (self.configure params).2.apertureSize = truncToInt value) ∧
      (EdgeDetectionFilter.acceptsApertureSize params = false →
        (self.configure params).2.apertureSize = self.apertureSize) ∧
      (self.configure params).2.enabled = self.enabled ∧
      ((self.configure params).1 = false → (self.configure params).2 = self) ∧
      ((self.configure params).2 ≠ self → (self.configure params).1 = true) ∧
      (EdgeDetectionFilter.accepts params = false →
        (self.configure params).1 = false ∧ (self.configure params).2 = self)) := by
  constructor
  · intro self
    obtain ⟨g1, g2, g3, g4, g5, g6, g7, g8⟩ :=
      gaussianBlur_configure_fields indefinite self params
    have h2 := gaussianBlur_configure_false indefinite self params
    refine ⟨g1, g2, g3, g4, g5, g6, g7, g8, h2, ?_, ?_⟩
    · intro hne
      by_contra hf
      exact hne (h2 (by simpa using hf))
    · intro ha
      have hf : (self.configure indefinite params).1 = false := by rw [g1, ha]
      exact ⟨hf, h2 hf⟩
  · intro self
    obtain ⟨g1, g2, g3, g4, g5, g6, g7, g8⟩ := edgeDetection_configure_fields self params
    have h2 := edgeDetection_configure_false self params
    refine ⟨g1, g2, g3, g4, g5, g6, g7, g8, h2, ?_, ?_⟩
    · intro hne
      by_contra hf
      exact hne (h2 (by simpa using hf))
    · intro ha
      have hf : (self.configure params).1 = false := by rw [g1, ha]
      exact ⟨hf, h2 hf⟩

/-- C14 amended, instantiated.  On a default Gaussian blur, a map with
`sigmaX = 2`, the negative `sigmaY = -1` and an unrecognised key returns
true, stores `sigmaX = 2` and leaves `sigmaY = 1.5` and the kernel size 5.
On a default edge detection, a map with the thresholds 50 and 150 and the
aperture size 4 returns true, stores both thresholds and leaves the aperture
size 3.  A map holding only an unrecognised key, and on x86-64 a map holding
only the kernel size 3000000000, which does not fit an `int`, return false
and leave the Gaussian blur unchanged. -/
theorem configure_returns_accepted_witness :
    (GaussianBlurFilter.create.configure INT_MIN mixedParams).1 = true ∧
    (GaussianBlurFilter.create.configure INT_MIN mixedParams).2.sigmaX = 2 ∧
    (GaussianBlurFilter.create.configure INT_MIN mixedParams).2.sigmaY = 3 / 2 ∧
    (GaussianBlurFilter.create.configure INT_MIN mixedParams).2.kernelSize = 5 ∧
    (EdgeDetectionFilter.create.configure edgeParams).1 = true ∧
    (EdgeDetectionFilter.create.configure edgeParams).2.threshold1 = 50 ∧
    (EdgeDetectionFilter.create.configure edgeParams).2.threshold2 = 150 ∧
    (EdgeDetectionFilter.create.configure edgeParams).2.apertureSize = 3 ∧
    (GaussianBlurFilter.create.configure INT_MIN (singleParam "radius" 3)).1 = false ∧
    (GaussianBlurFilter.create.configure INT_MIN (singleParam "radius" 3)).2
      = GaussianBlurFilter.create ∧
    (GaussianBlurFilter.create.configure INT_MIN beyondIntParams).1 = false ∧
    (GaussianBlurFilter.create.configure INT_MIN beyondIntParams).2
      = GaussianBlurFilter.create :=
  have hg := (configure_returns_accepted INT_MIN mixedParams).1 GaussianBlurFilter.create
  have he := (configure_returns_accepted INT_MIN edgeParams).2 EdgeDetectionFilter.create
  have hr := ((configure_returns_accepted INT_MIN (singleParam "radius" 3)).1
    GaussianBlurFilter.create).2.2.2.2.2.2.2.2.2.2
      (by simp [GaussianBlurFilter.accepts, GaussianBlurFilter.acceptsKernelSize,
        acceptsPositive, singleParam])
  have hb := ((configure_returns_accepted INT_MIN beyondIntParams).1
    GaussianBlurFilter.create).2.2.2.2.2.2.2.2.2.2
      (by
        have hc := staticCastInt_threeBillion INT_MIN
        simp [GaussianBlurFilter.accepts, GaussianBlurFilter.acceptsKernelSize,
          acceptsPositive, beyondIntParams, singleParam, hc]
        decide)
  have hfour : truncToInt (4 : ℚ) = 4 := by
    have h0 := truncToInt_intCast 4
    simpa using h0
  ⟨by
      rw [hg.1]
      simp [GaussianBlurFilter.accepts, GaussianBlurFilter.acceptsKernelSize,
        acceptsPositive, mixedParams],
    hg.2.2.2.1 2 (by simp [mixedParams]) (by norm_num),
    hg.2.2.2.2.2.2.1 (by simp [acceptsPositive, mixedParams]),
    hg.2.2.1 (by simp [GaussianBlurFilter.acceptsKernelSize, mixedParams]),
    by
      rw [he.1]
      simp [EdgeDetectionFilter.accepts, EdgeDetectionFilter.acceptsApertureSize,
        acceptsNonNegative, edgeParams],
    he.2.1 50 (by simp [edgeParams]) (by norm_num),
    he.2.2.2.1 150 (by simp [edgeParams]) (by norm_num),
    he.2.2.2.2.2.2.1 (by simp [EdgeDetectionFilter.acceptsApertureSize, edgeParams, hfour]),
    hr.1, hr.2, hb.1, hb.2⟩

/-- C15: the kernel size of the Gaussian blur is always odd.  The default
constructor stores 5; the three-argument constructor stores `kernelSize + 1`
for an even and `kernelSize` for an odd argument, together with both sigmas;
`configure` keeps an odd size odd.  For a map that holds `kernelSize`, let
`k` be the `int` it is converted to (its integer part when that fits an
`int`): `configure` stores `k + 1` and returns true when `k` is even and
`k + 1 > 0`, stores `k` and returns true when `k` is odd and `k > 0`, and
otherwise leaves the size unchanged; without the key the size is unchanged,
and a size that `configure` has changed is positive.  None of the sizes
stored leaves the range of `int`. -/
theorem gaussian_kernelSize_odd (indefinite : Int) :
    Odd GaussianBlurFilter.create.kernelSize ∧
    GaussianBlurFilter.create.kernelSize = 5 ∧
    (∀ (kernelSize : Int) (sigmaX sigmaY : ℚ),
      Odd (GaussianBlurFilter.construct kernelSize sigmaX sigmaY).kernelSize ∧
      (Even kernelSize →
        (GaussianBlurFilter.construct kernelSize sigmaX sigmaY).kernelSize = kernelSize + 1) ∧
      (Odd kernelSize →
        (GaussianBlurFilter.construct kernelSize sigmaX sigmaY).kernelSize = kernelSize) ∧
      (GaussianBlurFilter.construct kernelSize sigmaX sigmaY).sigmaX = sigmaX ∧
      (GaussianBlurFilter.construct kernelSize sigmaX sigmaY).sigmaY = sigmaY ∧
      (INT_MIN ≤ kernelSize → kernelSize ≤ INT_MAX →
        INT_MIN ≤ (GaussianBlurFilter.construct kernelSize sigmaX sigmaY).kernelSize ∧
        (GaussianBlurFilter.construct kernelSize sigmaX sigmaY).kernelSize ≤ INT_MAX)) ∧
    (∀ (self : GaussianBlurFilter) (params : Params),
      Odd self.kernelSize → Odd (self.configure indefinite params).2.kernelSize) ∧
    (∀ (self : GaussianBlurFilter) (params : Params) (value : ℚ),
      params "kernelSize" = some value →
      (Even (staticCastInt indefinite value) → 0 < staticCastInt indefinite value + 1 →
        (self.configure indefinite params).2.kernelSize = staticCastInt indefinite value + 1 ∧
        (self.configure indefinite params).1 = true) ∧
      (Odd (staticCastInt indefinite value) → 0 < staticCastInt indefinite value →
        (self.configure indefinite params).2.kernelSize = staticCastInt indefinite value ∧
        (self.configure indefinite params).1 = true) ∧
      (¬ (Even (staticCastInt indefinite value) ∧ 0 < staticCastInt indefinite value + 1) →
        ¬ (Odd (staticCastInt indefinite value) ∧ 0 < staticCastInt indefinite value) →
        (self.configure indefinite params).2.kernelSize = self.kernelSize)) ∧
    (∀ (self : GaussianBlurFilter) (params : Params),
      params "kernelSize" = none →
        (self.configure indefinite params).2.kernelSize = self.kernelSize) ∧
    (∀ (self : GaussianBlurFilter) (params : Params),
      (self.configure indefinite params).2.kernelSize ≠ self.kernelSize →
        0 < (self.configure indefinite params).2.kernelSize) ∧
    (∀ value : ℚ, INT_MIN ≤ truncToInt value → truncToInt value ≤ INT_MAX →
      staticCastInt indefinite value = truncToInt value) ∧
    (∀ k : Int, INT_MIN ≤ k → k ≤ INT_MAX → staticCastInt indefinite (k : ℚ) = k) ∧
    (∀ (self : GaussianBlurFilter) (params : Params),
      INT_MIN ≤ indefinite → indefinite ≤ INT_MAX →
      INT_MIN ≤ self.kernelSize → self.kernelSize ≤ INT_MAX →
      INT_MIN ≤ (self.configure indefinite params).2.kernelSize ∧
      (self.configure indefinite params).2.kernelSize ≤ INT_MAX) := by
  have hkernel : ∀ (self : GaussianBlurFilter) (params : Params),
      (self.configure indefinite params).2.kernelSize
        = (match params "kernelSize" with
          | some value =>
            if 0 < roundUpToOdd (staticCastInt indefinite value) then
              roundUpToOdd (staticCastInt indefinite value)
            else self.kernelSize
          | none => self.kernelSize) ∧
      (∀ value : ℚ, params "kernelSize" = some value →
        0 < roundUpToOdd (staticCastInt indefinite value) →
        (self.configure indefinite params).1 = true) := by
    intro self params
    obtain ⟨hk, hr⟩ := GaussianBlurFilter.configure_kernelSize indefinite self params
    rw [hk]
    rw [configureKernelSize_eq] at hr ⊢
    cases hv : params "kernelSize" with
    | none => simp
    | some value =>
      simp only [hv] at hr
      constructor
      · simp only
        split_ifs <;> rfl
      · intro v hvv hpos
        have hvv2 : value = v := by simpa using hvv
        subst hvv2
        exact hr (by simp [hpos])
  have hstore : ∀ (self : GaussianBlurFilter) (params : Params) (value : ℚ),
      params "kernelSize" = some value →
      (Even (staticCastInt indefinite value) → 0 < staticCastInt indefinite value + 1 →
        (self.configure indefinite params).2.kernelSize = staticCastInt indefinite value + 1 ∧
        (self.configure indefinite params).1 = true) ∧
      (Odd (staticCastInt indefinite value) → 0 < staticCastInt indefinite value →
        (self.configure indefinite params).2.kernelSize = staticCastInt indefinite value ∧
        (self.configure indefinite params).1 = true) ∧
      (¬ (Even (staticCastInt indefinite value) ∧ 0 < staticCastInt indefinite value + 1) →
        ¬ (Odd (staticCastInt indefinite value) ∧ 0 < staticCastInt indefinite value) →
        (self.configure indefinite params).2.kernelSize = self.kernelSize) := by
    intro self params value hv
    obtain ⟨hk, hr⟩ := hkernel self params
    rw [hk]
    simp only [hv]
    refine ⟨fun he hp => ?_, fun ho hp => ?_, fun h1 h2 => ?_⟩
    · have hround := roundUpToOdd_of_even _ he
      rw [hround, if_pos hp]
      exact ⟨rfl, hr value hv (by rw [hround]; exact hp)⟩
    · have hround := roundUpToOdd_of_odd _ ho
      rw [hround, if_pos hp]
      exact ⟨rfl, hr value hv (by rw [hround]; exact hp)⟩
    · by_cases he : Even (staticCastInt indefinite value)
      · rw [roundUpToOdd_of_even _ he, if_neg (fun hp => h1 ⟨he, hp⟩)]
      · have ho := Int.not_even_iff_odd.mp he
        rw [roundUpToOdd_of_odd _ ho, if_neg (fun hp => h2 ⟨ho, hp⟩)]
  have hcases : ∀ (self : GaussianBlurFilter) (params : Params),
      (self.configure indefinite params).2.kernelSize = self.kernelSize ∨
      (∃ value : ℚ,
        (self.configure indefinite params).2.kernelSize
          = roundUpToOdd (staticCastInt indefinite value) ∧
        0 < roundUpToOdd (staticCastInt indefinite value)) := by
    intro self params
    rw [(hkernel self params).1]
    cases hv : params "kernelSize" with
    | none => exact Or.inl rfl
    | some value =>
      simp only
      split_ifs with hp
      · exact Or.inr ⟨value, rfl, hp⟩
      · exact Or.inl rfl
  have hnone : ∀ (self : GaussianBlurFilter) (params : Params),
      params "kernelSize" = none →
        (self.configure indefinite params).2.kernelSize = self.kernelSize := by
    intro self params hv
    rw [(hkernel self params).1]
    simp only [hv]
  refine ⟨by decide, rfl, ?_, ?_, hstore, hnone, ?_,
    fun value h1 h2 => staticCastInt_of_fits indefinite value h1 h2, ?_, ?_⟩
  · intro kernelSize sigmaX sigmaY
    unfold GaussianBlurFilter.construct
    by_cases h0 : Int.tmod kernelSize 2 = 0
    · have he := (tmod_two_eq_zero_iff_even _).mp h0
      have hne : kernelSize ≠ INT_MAX := by
        intro hmax
        rw [hmax] at he
        exact absurd he (by decide)
      refine ⟨by simpa [h0] using he.add_one, fun _ => by simp [h0],
        fun ho => absurd he (Int.not_even_iff_odd.mpr ho), by simp [h0], by simp [h0], ?_⟩
      intro hlow hhigh
      simp only [h0, if_true]
      constructor <;> omega
    · have ho := (tmod_two_ne_zero_iff_odd _).mp h0
      refine ⟨by simpa [h0] using ho, fun he => absurd he (Int.not_even_iff_odd.mpr ho),
        fun _ => by simp [h0], by simp [h0], by simp [h0], ?_⟩
      intro hlow hhigh
      simp only [h0, if_false]
      exact ⟨hlow, hhigh⟩
  · intro self params hodd
    rcases hcases self params with h | ⟨value, h, _⟩
    · rw [h]
      exact hodd
    · rw [h]
      exact roundUpToOdd_odd _
  · intro self params hne
    rcases hcases self params with h | ⟨value, h, hp⟩
    · exact absurd h hne
    · rw [h]
      exact hp
  · intro k hlow hhigh
    have ht := truncToInt_intCast k
    rw [staticCastInt_of_fits indefinite (k : ℚ) (by rw [ht]; exact hlow)
      (by rw [ht]; exact hhigh), ht]
  · intro self params ilow ihigh hlow hhigh
    rcases hcases self params with h | ⟨value, h, _⟩
    · rw [h]
      exact ⟨hlow, hhigh⟩
    · rw [h]
      obtain ⟨c1, c2⟩ := staticCastInt_range indefinite value ilow ihigh
      exact roundUpToOdd_range _ c1 c2

/-- C15 instantiated: on x86-64 a request for the even kernel size 4 on a
default filter stores 5 and is reported as a change; a request for
3000000000, which does not fit an `int`, leaves the size 5; the constructor
called with 4 stores 5. -/
theorem gaussian_kernelSize_odd_witness :
    (GaussianBlurFilter.create.configure INT_MIN (singleParam "kernelSize" 4)).2.kernelSize
      = 5 ∧
    (GaussianBlurFilter.create.configure INT_MIN (singleParam "kernelSize" 4)).1 = true ∧
    (GaussianBlurFilter.create.configure INT_MIN beyondIntParams).2.kernelSize = 5 ∧
    (GaussianBlurFilter.construct 4 1 1).kernelSize = 5 :=
  have hcast : staticCastInt INT_MIN (4 : ℚ) = 4 := by
    have h0 := (gaussian_kernelSize_odd INT_MIN).2.2.2.2.2.2.2.2.1 4 (by decide) (by decide)
    simpa using h0
  have h := ((gaussian_kernelSize_odd INT_MIN).2.2.2.2.1 GaussianBlurFilter.create
    (singleParam "kernelSize" 4) 4 (by simp [singleParam])).1
      (by rw [hcast]; decide) (by rw [hcast]; decide)
  have hbig := staticCastInt_threeBillion INT_MIN
  have hb := ((gaussian_kernelSize_odd INT_MIN).2.2.2.2.1 GaussianBlurFilter.create
    beyondIntParams 3000000000 (by simp [beyondIntParams, singleParam])).2.2
      (by rw [hbig]; decide) (by rw [hbig]; decide)
  ⟨by rw [h.1, hcast]; rfl, h.2, by rw [hb]; rfl,
    ((gaussian_kernelSize_odd INT_MIN).2.2.1 4 1 1).2.1 (by decide)⟩

/-! ## A filter whose transform fails -/

theorem applyFilters_eq_foldl_chain (self : VideoProcessor) (chain : List Filter) (input : Mat) :
    VideoProcessor.applyFilters { self with filters := chain } input
      = List.foldl (fun frame f => (f.apply frame).2) input (chain.filter Filter.isEnabled) := by
  simp [VideoProcessor.applyFilters, applyLoop_eq_foldl]

theorem applyFilters_skips_noop (self : VideoProcessor) (pre post : List Filter) (f : Filter)
    (input : Mat)
    (hnoop : (f.apply (VideoProcessor.applyFilters { self with filters := pre } input)).2
      = VideoProcessor.applyFilters { self with filters := pre } input) :
    VideoProcessor.applyFilters { self with filters := pre ++ f :: post } input
      = VideoProcessor.applyFilters { self with filters := pre ++ post } input := by
  rw [applyFilters_eq_foldl_chain] at hnoop
  simp only [applyFilters_eq_foldl_chain, List.filter_append, List.foldl_append]
  by_cases hf : f.isEnabled = true
  · simp [List.filter_cons, hf, hnoop]
  · simp [List.filter_cons, hf]

theorem gaussianBlur_apply_of_failure (ip : ImgProc) (g : GaussianBlurFilter) (x : Mat)
    (hfail : ip.gaussianBlur x g.kernelSize g.sigmaX g.sigmaY = none) :
    g.apply ip x = (false, x) := by
  unfold GaussianBlurFilter.apply
  split <;> simp [hfail]

theorem edgeDetection_apply_of_failure (ip : ImgProc) (e : EdgeDetectionFilter) (x : Mat)
    (hfail : e.detect ip x = none) :
    e.apply ip x = (false, x) := by
  unfold EdgeDetectionFilter.apply
  split <;> simp [hfail]

/-- C16: let `x` be the frame that reaches a filter in the chain `pre ++ f :: post`,
that is the output of `applyFilters` for the chain `pre`.  If `f` is an
enabled Gaussian blur whose `cv::GaussianBlur` throws on `x`, or an enabled
edge detection one of whose OpenCV calls throws on `x`, then its `apply`
returns `x` unchanged with success false, and `applyFilters` goes on with the
filters behind it: the output for the whole chain equals the output for the
chain without `f`.  The same holds for every enabled filter whose `apply`
returns its input with success false. -/
theorem applyFilters_continues_after_failure (ip : ImgProc) (self : VideoProcessor)
    (pre post : List Filter) (input : Mat) :
    (∀ g : GaussianBlurFilter, g.isEnabled = true →
      ip.gaussianBlur (VideoProcessor.applyFilters { self with filters := pre } input)
        g.kernelSize g.sigmaX g.sigmaY = none →
      g.apply ip (VideoProcessor.applyFilters { self with filters := pre } input)
        = (false, VideoProcessor.applyFilters { self with filters := pre } input) ∧
      VideoProcessor.applyFilters { self with filters := pre ++ g.toFilter ip :: post } input
        = VideoProcessor.applyFilters { self with filters := pre ++ post } input) ∧
    (∀ e : EdgeDetectionFilter, e.isEnabled = true →
      e.detect ip (VideoProcessor.applyFilters { self with filters := pre } input) = none →
      e.apply ip (VideoProcessor.applyFilters { self with filters := pre } input)
        = (false, VideoProcessor.applyFilters { self with filters := pre } input) ∧
      VideoProcessor.applyFilters { self with filters := pre ++ e.toFilter ip :: post } input
        = VideoProcessor.applyFilters { self with filters := pre ++ post } input) ∧
    (∀ f : Filter, f.isEnabled = true →
      f.apply (VideoProcessor.applyFilters { self with filters := pre } input)
        = (false, VideoProcessor.applyFilters { self with filters := pre } input) →
      VideoProcessor.applyFilters { self with filters := pre ++ f :: post } input
        = VideoProcessor.applyFilters { self with filters := pre ++ post } input) := by
  refine ⟨fun g _ hfail => ?_, fun e _ hfail => ?_, fun f _ hnoop => ?_⟩
  · have ha := gaussianBlur_apply_of_failure ip g _ hfail
    exact ⟨ha, applyFilters_skips_noop self pre post (g.toFilter ip) input
      (by simp [GaussianBlurFilter.toFilter, ha])⟩
  · have ha := edgeDetection_apply_of_failure ip e _ hfail
    exact ⟨ha, applyFilters_skips_noop self pre post (e.toFilter ip) input
      (by simp [EdgeDetectionFilter.toFilter, ha])⟩
  · exact applyFilters_skips_noop self pre post f input (by rw [hnoop])

/-- C16 instantiated: between an inverting and a halving filter, a Gaussian
blur whose transform throws changes nothing: the sample frame comes out
inverted and halved. -/
theorem applyFilters_continues_after_failure_witness :
    VideoProcessor.applyFilters
        { VideoProcessor.create with
          filters := [invertFilter] ++ GaussianBlurFilter.create.toFilter failingBlur ::
            [halveFilter] }
        sampleFrame
      = VideoProcessor.applyFilters
        { VideoProcessor.create with filters := [invertFilter] ++ [halveFilter] } sampleFrame ∧
    VideoProcessor.applyFilters
        { VideoProcessor.create with filters := [invertFilter] ++ [halveFilter] } sampleFrame
      = { sampleFrame with data := [122, 117, 112] } :=
  ⟨((applyFilters_continues_after_failure failingBlur VideoProcessor.create [invertFilter]
      [halveFilter] sampleFrame).1 GaussianBlurFilter.create (by decide) rfl).2,
    by decide⟩

/-! ## The queue bound -/

set_option maxRecDepth 100000

theorem MAX_QUEUE_SIZE_eq : MAX_QUEUE_SIZE = 10 := rfl

theorem openVideo_queue (cv : OpenCV) (self : VideoProcessor) (filename : String) :
    (self.openVideo cv filename).2.frameQueue = self.frameQueue ∧
    (self.openVideo cv filename).2.stopRequested = self.stopRequested ∧
    (self.openVideo cv filename).2.processing = self.processing := by
  have h := openVideo_leaves_pipeline cv self filename
  exact ⟨h.2.2.2.2.2.2.2.2.1, h.2.2.2.2.2.2.2.1, h.2.2.2.2.2.1⟩

theorem startProcessing_queue (self : VideoProcessor) :
    (self.startProcessing.2.frameQueue = self.frameQueue ∨
      self.startProcessing.2.frameQueue = []) ∧
    (self.stopRequested = false → self.startProcessing.2.stopRequested = false) ∧
    (self.processing = true → self.startProcessing.2 = self) := by
  unfold VideoProcessor.startProcessing
  cases self.videoCapture.isOpened <;> cases self.processing <;> simp

theorem seekToFrame_queue (cv : OpenCV) (self : VideoProcessor) (framePos : Int) :
    ((self.seekToFrame cv framePos).2.frameQueue = self.frameQueue ∨
      (self.seekToFrame cv framePos).2.frameQueue = []) ∧
    (self.seekToFrame cv framePos).2.stopRequested = self.stopRequested ∧
    (self.seekToFrame cv framePos).2.processing = self.processing := by
  unfold VideoProcessor.seekToFrame
  by_cases h : framePos < 0 ∨ framePos ≥ self.totalFrames
  · simp [h]
  · rw [if_neg h]
    simp only [VideoProcessor.pauseProcessing, VideoProcessor.resumeProcessing]
    split_ifs <;> simp

theorem restartVideo_queue (cv : OpenCV) (self : VideoProcessor) :
    ((self.restartVideo cv).2.frameQueue = self.frameQueue ∨
      (self.restartVideo cv).2.frameQueue = []) ∧
    (self.stopRequested = false → (self.restartVideo cv).2.stopRequested = false) ∧
    (self.processing = true → (self.restartVideo cv).2.processing = true) := by
  unfold VideoProcessor.restartVideo
  by_cases hg : (self.inputFilename.isEmpty || !self.videoCapture.isOpened) = true
  · simp [hg]
  · rw [if_neg hg]
    cases hset : (cv.captureSet self.videoCapture 0).1 <;>
      cases hp : self.processing <;> cases hq : self.paused <;>
      cases ho : (cv.captureSet self.videoCapture 0).2.isOpened <;>
      simp [hset, hp, hq, ho, VideoProcessor.startProcessing, VideoProcessor.resumeProcessing]

theorem removeFilter_queue (self : VideoProcessor) (index : Nat) :
    (self.removeFilter index).2.frameQueue = self.frameQueue ∧
    (self.removeFilter index).2.stopRequested = self.stopRequested ∧
    (self.removeFilter index).2.processing = self.processing := by
  unfold VideoProcessor.removeFilter
  split <;> simp

theorem addFilter_queue (self : VideoProcessor) (filter : Option Filter) :
    (self.addFilter filter).frameQueue = self.frameQueue ∧
    (self.addFilter filter).stopRequested = self.stopRequested ∧
    (self.addFilter filter).processing = self.processing := by
  cases filter <;> simp [VideoProcessor.addFilter]

theorem setOutputFile_queue (cv : OpenCV) (self : VideoProcessor) (filename : String)
    (fourcc : Int) (fps : ℚ) :
    (self.setOutputFile cv filename fourcc fps).2.frameQueue = self.frameQueue ∧
    (self.setOutputFile cv filename fourcc fps).2.stopRequested = self.stopRequested ∧
    (self.setOutputFile cv filename fourcc fps).2.processing = self.processing := by
  unfold VideoProcessor.setOutputFile
  simp only []
  split_ifs <;> simp

theorem queueBounded_of_call (p : Pipeline) (vp1 : VideoProcessor) (h : p.QueueBounded)
    (hq : vp1.frameQueue = p.vp.frameQueue ∨ vp1.frameQueue = [])
    (hs : vp1.stopRequested = false) :
    (p.afterCall vp1).QueueBounded ∧ Pipeline.QueueBounded { p with vp := vp1 } := by
  obtain ⟨h1, h2, h3, h4⟩ := h
  unfold Pipeline.afterCall
  constructor
  · split
    · refine ⟨hs, h2, ?_, ?_⟩
      · rcases hq with hq | hq <;> simp [hq, h3]
      · simp [CapturePc.pastSpaceTest]
    · refine ⟨hs, h2, ?_, ?_⟩
      · rcases hq with hq | hq <;> simp [hq, h3]
      · intro hp
        rcases hq with hq | hq
        · simpa [hq] using h4 hp
        · simp [hq, MAX_QUEUE_SIZE]
  · refine ⟨hs, h2, ?_, ?_⟩
    · rcases hq with hq | hq <;> simp [hq, h3]
    · intro hp
      rcases hq with hq | hq
      · simpa [hq] using h4 hp
      · simp [hq, MAX_QUEUE_SIZE]

theorem queueBounded_decodeStep (cv : OpenCV) (p : Pipeline) (h : p.QueueBounded) :
    (p.decodeStep cv).QueueBounded := by
  obtain ⟨h1, h2, h3, h4⟩ := h
  unfold Pipeline.decodeStep
  cases hd : p.decode with
  | absent => exact ⟨h1, h2, h3, h4⟩
  | done => exact ⟨h1, h2, h3, h4⟩
  | loopTest =>
    simp only [h1]
    exact ⟨h1, h2, h3, by simp [CapturePc.pastSpaceTest]⟩
  | pauseTest =>
    simp only
    split <;> exact ⟨h1, h2, h3, by simp [CapturePc.pastSpaceTest]⟩
  | pauseWait =>
    simp only
    split
    · exact ⟨h1, h2, h3, by simp [CapturePc.pastSpaceTest]⟩
    · exact ⟨h1, h2, h3, h4⟩
  | spaceTest =>
    simp only
    split
    · exact ⟨h1, h2, h3, by simp [CapturePc.pastSpaceTest]⟩
    · rename_i hlt
      exact ⟨h1, h2, h3, fun _ => by simpa using hlt⟩
  | spaceWait =>
    simp only
    split
    · rename_i hlt
      refine ⟨h1, h2, h3, fun _ => ?_⟩
      simpa [h1] using hlt
    · exact ⟨h1, h2, h3, h4⟩
  | read =>
    have hlt := h4 (by simp [hd, CapturePc.pastSpaceTest])
    simp only
    split
    · exact ⟨h1, h2, h3, fun _ => hlt⟩
    · exact ⟨h1, h2, h3, by simp [Pipeline.decodeExit, CapturePc.pastSpaceTest]⟩
  | position frame =>
    have hlt := h4 (by simp [hd, CapturePc.pastSpaceTest])
    exact ⟨h1, h2, h3, fun _ => hlt⟩
  | push frame =>
    have hlt := h4 (by simp [hd, CapturePc.pastSpaceTest])
    refine ⟨h1, h2, ?_, by simp [CapturePc.pastSpaceTest]⟩
    simp only [List.length_append, List.length_singleton]
    omega

theorem updateFrameRate_fields (self : VideoProcessor) (now : Int) :
    (self.updateFrameRate now).frameQueue = self.frameQueue ∧
    (self.updateFrameRate now).stopRequested = self.stopRequested ∧
    (self.updateFrameRate now).processing = self.processing ∧
    (self.updateFrameRate now).captureThread = self.captureThread ∧
    (self.updateFrameRate now).filters = self.filters ∧
    (self.updateFrameRate now).videoCapture = self.videoCapture := by
  unfold VideoProcessor.updateFrameRate
  simp only []
  split_ifs <;> simp

theorem filterStep_queue (timeout : Bool) (now : Int) (p : Pipeline) :
    (p.filterStep timeout now).vp.frameQueue <:+ p.vp.frameQueue ∧
    (p.filterStep timeout now).vp.stopRequested = p.vp.stopRequested ∧
    (p.filterStep timeout now).vp.processing = p.vp.processing ∧
    (p.filterStep timeout now).vp.captureThread = p.vp.captureThread ∧
    (p.filterStep timeout now).decode = p.decode ∧
    (p.filterStep timeout now).joining = p.joining ∧
    (p.filterStep timeout now).readLog = p.readLog := by
  have hpop : p.popFront.vp.frameQueue <:+ p.vp.frameQueue ∧
      p.popFront.vp.stopRequested = p.vp.stopRequested ∧
      p.popFront.vp.processing = p.vp.processing ∧
      p.popFront.vp.captureThread = p.vp.captureThread ∧
      p.popFront.decode = p.decode ∧ p.popFront.joining = p.joining ∧
      p.popFront.readLog = p.readLog := by
    unfold Pipeline.popFront
    cases hq : p.vp.frameQueue with
    | nil => simp [hq]
    | cons frame rest => simp [List.suffix_cons]
  have hafter : p.afterWait.vp.frameQueue <:+ p.vp.frameQueue ∧
      p.afterWait.vp.stopRequested = p.vp.stopRequested ∧
      p.afterWait.vp.processing = p.vp.processing ∧
      p.afterWait.vp.captureThread = p.vp.captureThread ∧
      p.afterWait.decode = p.decode ∧ p.afterWait.joining = p.joining ∧
      p.afterWait.readLog = p.readLog := by
    unfold Pipeline.afterWait
    split
    · simp [Pipeline.filterExit]
    · split
      · simp
      · exact hpop
  unfold Pipeline.filterStep
  cases hf : p.filter with
  | absent => simp
  | done => simp
  | loopTest => simp only; split <;> simp [Pipeline.filterExit]
  | fetch =>
    simp only
    split
    · split <;> simp
    · exact hpop
  | timedWait =>
    simp only
    split
    · split
      · simp
      · exact hafter
    · simp
  | wait =>
    simp only
    split
    · exact hafter
    · simp
  | apply inputFrame => simp
  | write outputFrame => simp only; split <;> simp
  | publish outputFrame => simp
  | frameRate =>
    have hu := updateFrameRate_fields p.vp now
    simp [hu]

theorem queueBounded_filterStep (timeout : Bool) (now : Int) (p : Pipeline)
    (h : p.QueueBounded) : (p.filterStep timeout now).QueueBounded := by
  obtain ⟨h1, h2, h3, h4⟩ := h
  obtain ⟨g1, g2, _, _, g5, g6, _⟩ := filterStep_queue timeout now p
  have hlen := g1.length_le
  refine ⟨by rw [g2, h1], by rw [g6, h2], by omega, ?_⟩
  intro hp
  rw [g5] at hp
  have := h4 hp
  omega

theorem queueBounded_step (cv : OpenCV) (a : Action) (p : Pipeline) (ha : a.isStop = false)
    (h : p.QueueBounded) : (p.step cv a).QueueBounded := by
  have hj : p.joining = false := h.2.1
  have hs : p.vp.stopRequested = false := h.1
  cases a with
  | decode => exact queueBounded_decodeStep cv p h
  | filter timeout now => exact queueBounded_filterStep timeout now p h
  | stopRequest => simp [Action.isStop] at ha
  | stopJoin => simp [Action.isStop] at ha
  | openVideo filename =>
    have hq := openVideo_queue cv p.vp filename
    simpa [Pipeline.step, hj] using
      (queueBounded_of_call p _ h (Or.inl hq.1) (by rw [hq.2.1, hs])).2
  | startProcessing =>
    have hq := startProcessing_queue p.vp
    simpa [Pipeline.step, hj] using (queueBounded_of_call p _ h hq.1 (hq.2.1 hs)).1
  | pauseProcessing =>
    simpa [Pipeline.step, hj] using
      (queueBounded_of_call p p.vp.pauseProcessing h (Or.inl rfl) hs).2
  | resumeProcessing =>
    simpa [Pipeline.step, hj] using
      (queueBounded_of_call p p.vp.resumeProcessing h (Or.inl rfl) hs).2
  | addFilter filter =>
    have hq := addFilter_queue p.vp filter
    simpa [Pipeline.step, hj] using
      (queueBounded_of_call p _ h (Or.inl hq.1) (by rw [hq.2.1, hs])).2
  | removeFilter index =>
    have hq := removeFilter_queue p.vp index
    simpa [Pipeline.step, hj] using
      (queueBounded_of_call p _ h (Or.inl hq.1) (by rw [hq.2.1, hs])).2
  | setOutputFile filename fourcc fps =>
    have hq := setOutputFile_queue cv p.vp filename fourcc fps
    simpa [Pipeline.step, hj] using
      (queueBounded_of_call p _ h (Or.inl hq.1) (by rw [hq.2.1, hs])).2
  | seekToFrame framePos =>
    have hq := seekToFrame_queue cv p.vp framePos
    simpa [Pipeline.step, hj] using
      (queueBounded_of_call p _ h hq.1 (by rw [hq.2.1, hs])).2
  | restartVideo =>
    have hq := restartVideo_queue cv p.vp
    simpa [Pipeline.step, hj] using (queueBounded_of_call p _ h hq.1 (hq.2.1 hs)).1

theorem queueBounded_run (cv : OpenCV) (actions : List Action) (p : Pipeline)
    (ha : ∀ a ∈ actions, a.isStop = false) (h : p.QueueBounded) :
    (p.run cv actions).QueueBounded := by
  induction actions generalizing p with
  | nil => exact h
  | cons a rest ih =>
    have h1 := queueBounded_step cv a p (ha a (List.mem_cons_self a rest)) h
    exact ih (p.step cv a) (fun b hb => ha b (List.mem_cons_of_mem a hb)) h1

/-- C12: start from a freshly constructed controller and let steps of the
decode task, steps of the filter task and control calls (`pauseProcessing`,
`resumeProcessing`, `seekToFrame`, `restartVideo`, and also `openVideo`,
`startProcessing`, `addFilter`, `removeFilter`, `setOutputFile`) follow one
another in any order, with no `stopProcessing`.  In every state reached no
stop is requested and the frame queue holds at most `MAX_QUEUE_SIZE = 10`
frames. -/
theorem frameQueue_bounded (cv : OpenCV) (actions : List Action)
    (hstop : ∀ a ∈ actions, a.isStop = false) :
    (Pipeline.create.run cv actions).vp.stopRequested = false ∧
    (Pipeline.create.run cv actions).vp.frameQueue.length ≤ MAX_QUEUE_SIZE ∧
    MAX_QUEUE_SIZE = 10 := by
  have h0 : Pipeline.create.QueueBounded := by
    refine ⟨rfl, rfl, by simp [Pipeline.create], by simp [Pipeline.create, CapturePc.pastSpaceTest]⟩
  have h := queueBounded_run cv actions Pipeline.create hstop h0
  exact ⟨h.1, h.2.2.1, rfl⟩

/-- C12 instantiated: when the decode task of the twelve-frame stream has run
alone for 63 steps the queue holds exactly ten frames and the task waits for
space; a further step of the task leaves the queue as it is. -/
theorem frameQueue_bounded_witness :
    blockedOnFullQueue.vp.frameQueue.length = 10 ∧
    blockedOnFullQueue.decode = CapturePc.spaceWait ∧
    (Pipeline.create.run longCv
      ([Action.openVideo "long_video.mp4", Action.startProcessing] ++
        List.replicate 64 Action.decode)).vp.frameQueue.length ≤ MAX_QUEUE_SIZE :=
  ⟨by decide, by decide,
    (frameQueue_bounded longCv
      ([Action.openVideo "long_video.mp4", Action.startProcessing] ++
        List.replicate 64 Action.decode) (by decide)).2.1⟩

/-! ## Frames leave the pipeline in the order in which they were read -/

theorem readFrames_succ (cv : OpenCV) (n : Nat) (c0 c1 : VideoCapture) (frame : Mat)
    (hlen : (readFrames cv n c0).1.length = n)
    (hread : cv.captureRead (readFrames cv n c0).2 = (some frame, c1)) :
    readFrames cv (n + 1) c0 = ((readFrames cv n c0).1 ++ [frame], c1) := by
  induction n generalizing c0 with
  | zero =>
    simp only [readFrames] at hread
    simp [readFrames, hread]
  | succ m ih =>
    rw [readFrames] at hlen hread
    rw [readFrames]
    cases h0 : cv.captureRead c0 with
    | mk r c =>
      cases r with
      | none => simp [h0] at hlen
      | some f =>
        simp only [h0] at hlen hread
        have hlen1 : (readFrames cv m c).1.length = m := by simpa using hlen
        have := ih c hlen1 hread
        rw [readFrames]
        simp [h0, this]

theorem applyFilters_congr (s t : VideoProcessor) (h : s.filters = t.filters) (x : Mat) :
    s.applyFilters x = t.applyFilters x := by
  simp [VideoProcessor.applyFilters, h]

theorem inOrder_decodeStep (cv : OpenCV) (start p : Pipeline) (h : Pipeline.InOrder cv start p) :
    Pipeline.InOrder cv start (p.decodeStep cv) := by
  obtain ⟨h1, h2, h3, h4, h5⟩ := h
  unfold Pipeline.decodeStep
  cases hd : p.decode with
  | absent => exact ⟨h1, h2, h3, h4, h5⟩
  | done => exact ⟨h1, h2, h3, h4, h5⟩
  | loopTest =>
    have h5a := h5 (by simp [hd])
    simp only
    split
    · exact ⟨by simpa [Pipeline.decodeExit, hd, CapturePc.pending] using h1, h2, h3, h4,
        by simp [Pipeline.decodeExit]⟩
    · exact ⟨by simpa [hd, CapturePc.pending] using h1, h2, h3, h4, fun _ => h5a⟩
  | pauseTest =>
    have h5a := h5 (by simp [hd])
    simp only
    split <;> exact ⟨by simpa [hd, CapturePc.pending] using h1, h2, h3, h4, fun _ => h5a⟩
  | pauseWait =>
    have h5a := h5 (by simp [hd])
    simp only
    split
    · exact ⟨by simpa [hd, CapturePc.pending] using h1, h2, h3, h4, fun _ => h5a⟩
    · exact ⟨h1, h2, h3, h4, h5⟩
  | spaceTest =>
    have h5a := h5 (by simp [hd])
    simp only
    split <;> exact ⟨by simpa [hd, CapturePc.pending] using h1, h2, h3, h4, fun _ => h5a⟩
  | spaceWait =>
    have h5a := h5 (by simp [hd])
    simp only
    split
    · exact ⟨by simpa [hd, CapturePc.pending] using h1, h2, h3, h4, fun _ => h5a⟩
    · exact ⟨h1, h2, h3, h4, h5⟩
  | read =>
    have h5a := h5 (by simp [hd])
    have hlen : (readFrames cv p.readLog.length start.vp.videoCapture).1.length
        = p.readLog.length := by rw [h4]
    simp only
    cases hr : cv.captureRead p.vp.videoCapture with
    | mk r c =>
      cases r with
      | none =>
        exact ⟨by simpa [Pipeline.decodeExit, hd, CapturePc.pending] using h1, h2, h3, h4,
          by simp [Pipeline.decodeExit]⟩
      | some frame =>
        have hnext := readFrames_succ cv p.readLog.length start.vp.videoCapture c frame hlen
          (by rw [h5a, hr])
        refine ⟨?_, h2, h3, ?_, ?_⟩
        · simp only [CapturePc.pending]
          rw [h1]
          simp [hd, CapturePc.pending]
        · simp only [List.length_append, List.length_singleton]
          rw [hnext, h4]
        · intro _
          simp only [List.length_append, List.length_singleton]
          rw [hnext]
  | position frame =>
    have h5a := h5 (by simp [hd])
    exact ⟨by simpa [hd, CapturePc.pending] using h1, h2, h3, h4, fun _ => h5a⟩
  | push frame =>
    have h5a := h5 (by simp [hd])
    exact ⟨by simpa [hd, CapturePc.pending] using h1, h2, h3, h4, fun _ => h5a⟩

theorem inOrder_popFront (cv : OpenCV) (start p : Pipeline) (h : Pipeline.InOrder cv start p)
    (hf : p.filter.inFlight start.vp = []) :
    Pipeline.InOrder cv start p.popFront := by
  obtain ⟨h1, h2, h3, h4, h5⟩ := h
  unfold Pipeline.popFront
  cases hq : p.vp.frameQueue with
  | nil => exact ⟨h1, h2, h3, h4, h5⟩
  | cons frame rest =>
    refine ⟨?_, ?_, h3, h4, h5⟩
    · simp only
      rw [h1, hq]
      simp
    · simp only [List.map_append, List.map_cons, List.map_nil, FilterPc.inFlight]
      rw [h2, hf]
      simp

theorem inOrder_afterWait (cv : OpenCV) (start p : Pipeline) (h : Pipeline.InOrder cv start p)
    (hf : p.filter.inFlight start.vp = []) :
    Pipeline.InOrder cv start p.afterWait := by
  unfold Pipeline.afterWait
  split
  · obtain ⟨h1, h2, h3, h4, h5⟩ := h
    rw [hf] at h2
    exact ⟨h1, by simpa [Pipeline.filterExit, FilterPc.inFlight] using h2, h3, h4, h5⟩
  · split
    · obtain ⟨h1, h2, h3, h4, h5⟩ := h
      rw [hf] at h2
      exact ⟨h1, by simpa [FilterPc.inFlight] using h2, h3, h4, h5⟩
    · exact inOrder_popFront cv start p h hf

theorem inOrder_filterStep (cv : OpenCV) (start p : Pipeline) (timeout : Bool) (now : Int)
    (h : Pipeline.InOrder cv start p) :
    Pipeline.InOrder cv start (p.filterStep timeout now) := by
  have hall := h
  obtain ⟨h1, h2, h3, h4, h5⟩ := h
  unfold Pipeline.filterStep
  cases hf : p.filter with
  | absent => exact ⟨h1, h2, h3, h4, h5⟩
  | done => exact ⟨h1, h2, h3, h4, h5⟩
  | loopTest =>
    simp only
    split
    · exact ⟨h1, by simpa [Pipeline.filterExit, FilterPc.inFlight, hf] using h2, h3, h4, h5⟩
    · exact ⟨h1, by simpa [FilterPc.inFlight, hf] using h2, h3, h4, h5⟩
  | fetch =>
    simp only
    split
    · split <;> exact ⟨h1, by simpa [FilterPc.inFlight, hf] using h2, h3, h4, h5⟩
    · exact inOrder_popFront cv start p hall (by simp [hf, FilterPc.inFlight])
  | timedWait =>
    simp only
    split
    · split
      · exact ⟨h1, by simpa [FilterPc.inFlight, hf] using h2, h3, h4, h5⟩
      · exact inOrder_afterWait cv start p hall (by simp [hf, FilterPc.inFlight])
    · exact ⟨h1, h2, h3, h4, h5⟩
  | wait =>
    simp only
    split
    · exact inOrder_afterWait cv start p hall (by simp [hf, FilterPc.inFlight])
    · exact ⟨h1, h2, h3, h4, h5⟩
  | apply inputFrame =>
    refine ⟨h1, ?_, h3, h4, h5⟩
    simpa [FilterPc.inFlight, hf, applyFilters_congr p.vp start.vp h3] using h2
  | write outputFrame =>
    simp only
    split <;> exact ⟨h1, by simpa [FilterPc.inFlight, hf] using h2, h3, h4, h5⟩
  | publish outputFrame =>
    exact ⟨h1, by simpa [FilterPc.inFlight, hf] using h2, h3, h4, h5⟩
  | frameRate =>
    have hu := updateFrameRate_fields p.vp now
    refine ⟨?_, by simpa [FilterPc.inFlight, hf] using h2, ?_, h4, ?_⟩
    · simpa [hu.1] using h1
    · simpa [hu.2.2.2.2.1] using h3
    · simpa [hu.2.2.2.2.2] using h5

theorem inOrder_step (cv : OpenCV) (start p : Pipeline) (a : Action)
    (ha : a.isTaskOrPause = true) (h : Pipeline.InOrder cv start p) :
    Pipeline.InOrder cv start (p.step cv a) := by
  cases a with
  | decode => exact inOrder_decodeStep cv start p h
  | filter timeout now => exact inOrder_filterStep cv start p timeout now h
  | pauseProcessing =>
    unfold Pipeline.step
    simp only
    split
    · exact h
    · exact h
  | resumeProcessing =>
    unfold Pipeline.step
    simp only
    split
    · exact h
    · exact h
  | openVideo filename => simp [Action.isTaskOrPause] at ha
  | startProcessing => simp [Action.isTaskOrPause] at ha
  | stopRequest => simp [Action.isTaskOrPause] at ha
  | stopJoin => simp [Action.isTaskOrPause] at ha
  | addFilter filter => simp [Action.isTaskOrPause] at ha
  | removeFilter index => simp [Action.isTaskOrPause] at ha
  | setOutputFile filename fourcc fps => simp [Action.isTaskOrPause] at ha
  | seekToFrame framePos => simp [Action.isTaskOrPause] at ha
  | restartVideo => simp [Action.isTaskOrPause] at ha

theorem inOrder_run (cv : OpenCV) (start : Pipeline) (actions : List Action) (p : Pipeline)
    (ha : ∀ a ∈ actions, a.isTaskOrPause = true) (h : Pipeline.InOrder cv start p) :
    Pipeline.InOrder cv start (p.run cv actions) := by
  induction actions generalizing p with
  | nil => exact h
  | cons a rest ih =>
    exact ih (p.step cv a) (fun b hb => ha b (List.mem_cons_of_mem a hb))
      (inOrder_step cv start p a (ha a (List.mem_cons_self a rest)) h)

/-- C13: start right after `startProcessing` has started the two threads and
let steps of the decode task, steps of the filter task and calls of
`pauseProcessing` and `resumeProcessing` follow one another in any order.
Then the frames the filter task has taken from the queue are a prefix of the
frames the decode task has read, the frames published are a prefix of the
filtered frames taken, and the frames read are the first frames that
successive reads yield from the capture the run started with, whatever the
pauses: no frame is dropped, duplicated or reordered. -/
theorem frames_in_order (cv : OpenCV) (start : Pipeline) (actions : List Action)
    (hstart : start.JustStarted)
    (hactions : ∀ a ∈ actions, a.isTaskOrPause = true) :
    (start.run cv actions).popLog <+: (start.run cv actions).readLog ∧
    (start.run cv actions).published
      <+: (start.run cv actions).popLog.map start.vp.applyFilters ∧
    (start.run cv actions).readLog
      = (readFrames cv (start.run cv actions).readLog.length start.vp.videoCapture).1 := by
  obtain ⟨s1, s2, s3, s4, s5, s6⟩ := hstart
  have h0 : Pipeline.InOrder cv start start := by
    refine ⟨by simp [s1, s3, s4, s5, CapturePc.pending],
      by simp [s2, s5, s6, FilterPc.inFlight], rfl, by simp [s4, readFrames], ?_⟩
    intro _
    simp [s4, readFrames]
  obtain ⟨h1, h2, _, h4, _⟩ := inOrder_run cv start actions start hactions h0
  refine ⟨?_, ?_, h4.symm⟩
  · rw [h1, List.append_assoc]
    exact List.prefix_append _ _
  · rw [h2]
    exact List.prefix_append _ _

/-- C13 instantiated: in a run of the sample system with a pause and a resume
the decode task has read two frames, the filter task has taken the first of
them and published it. -/
theorem frames_in_order_witness :
    (samplePlaying.run sampleCv pausedRun).readLog = [sampleFrame, sampleFrame] ∧
    (samplePlaying.run sampleCv pausedRun).popLog = [sampleFrame] ∧
    (samplePlaying.run sampleCv pausedRun).published.length = 1 ∧
    (samplePlaying.run sampleCv pausedRun).popLog
      <+: (samplePlaying.run sampleCv pausedRun).readLog :=
  ⟨by decide, by decide, by decide,
    (frames_in_order sampleCv samplePlaying pausedRun
      ⟨by decide, by decide, by decide, by decide, by decide, by decide⟩ (by decide)).1⟩

/-! ## A stop while the decode task waits for space -/

/-- C17 at the failing input: the decode task waits on a queue of ten frames
(a further step of it changes nothing); `stopProcessing` then signals the
stop; the decode task wakes, reads one more frame from the source, pushes it
and only then returns: the queue holds eleven frames, more than
`MAX_QUEUE_SIZE`. -/
theorem decode_pushes_after_stop :
    blockedOnFullQueue.decode = CapturePc.spaceWait ∧
    blockedOnFullQueue.vp.frameQueue.length = 10 ∧
    (blockedOnFullQueue.step longCv Action.decode).decode = CapturePc.spaceWait ∧
    (blockedOnFullQueue.step longCv Action.stopRequest).vp.stopRequested = true ∧
    (blockedOnFullQueue.step longCv Action.stopRequest).joining = true ∧
    stoppedOnFullQueue.decode = CapturePc.done ∧
    stoppedOnFullQueue.readLog.length = blockedOnFullQueue.readLog.length + 1 ∧
    stoppedOnFullQueue.vp.frameQueue.length = 11 ∧
    MAX_QUEUE_SIZE < stoppedOnFullQueue.vp.frameQueue.length := by
  decide

/-! ## After the end of the stream -/

theorem decodeStep_done (cv : OpenCV) (p : Pipeline) (hd : p.decode = CapturePc.done) :
    p.decodeStep cv = p := by
  unfold Pipeline.decodeStep
  rw [hd]

theorem restartVideo_running (cv : OpenCV) (self : VideoProcessor)
    (hp : self.processing = true) :
    (self.restartVideo cv).2.processing = true ∧
    (self.restartVideo cv).2.captureThread = self.captureThread ∧
    ((self.restartVideo cv).2.frameQueue = self.frameQueue) := by
  unfold VideoProcessor.restartVideo
  simp only [hp, VideoProcessor.resumeProcessing]
  split_ifs <;> simp_all

theorem seekToFrame_thread (cv : OpenCV) (self : VideoProcessor) (framePos : Int) :
    (self.seekToFrame cv framePos).2.captureThread = self.captureThread := by
  unfold VideoProcessor.seekToFrame
  simp only [VideoProcessor.pauseProcessing, VideoProcessor.resumeProcessing]
  split_ifs <;> simp

theorem removeFilter_thread (self : VideoProcessor) (index : Nat) :
    (self.removeFilter index).2.captureThread = self.captureThread := by
  unfold VideoProcessor.removeFilter
  split <;> simp

theorem addFilter_thread (self : VideoProcessor) (filter : Option Filter) :
    (self.addFilter filter).captureThread = self.captureThread := by
  cases filter <;> simp [VideoProcessor.addFilter]

theorem setOutputFile_thread (cv : OpenCV) (self : VideoProcessor) (filename : String)
    (fourcc : Int) (fps : ℚ) :
    (self.setOutputFile cv filename fourcc fps).2.captureThread = self.captureThread := by
  unfold VideoProcessor.setOutputFile
  simp only []
  split_ifs <;> simp

theorem afterCall_running (p : Pipeline) (vp1 : VideoProcessor)
    (hp : p.vp.processing = true) :
    p.afterCall vp1 = { p with vp := vp1 } := by
  simp [Pipeline.afterCall, hp]

theorem decodeGone_call (p : Pipeline) (vp1 : VideoProcessor)
    (hd : p.decode = CapturePc.done) (hj : p.joining = false)
    (h1 : vp1.processing = true) (h2 : vp1.captureThread = p.vp.captureThread)
    (h3 : vp1.frameQueue = p.vp.frameQueue ∨ vp1.frameQueue = []) :
    Pipeline.decode { p with vp := vp1 } = CapturePc.done ∧
    (Pipeline.vp { p with vp := vp1 }).processing = true ∧
    Pipeline.joining { p with vp := vp1 } = false ∧
    (Pipeline.vp { p with vp := vp1 }).captureThread = p.vp.captureThread ∧
    (Pipeline.vp { p with vp := vp1 }).frameQueue <:+ p.vp.frameQueue ∧
    Pipeline.readLog { p with vp := vp1 } = p.readLog := by
  refine ⟨hd, h1, hj, h2, ?_, rfl⟩
  rcases h3 with h3 | h3
  · show vp1.frameQueue <:+ p.vp.frameQueue
    exact h3 ▸ List.suffix_rfl
  · show vp1.frameQueue <:+ p.vp.frameQueue
    rw [h3]
    exact List.nil_suffix

theorem decodeGone_step (cv : OpenCV) (a : Action) (p : Pipeline) (ha : a.isStop = false)
    (hd : p.decode = CapturePc.done) (hp : p.vp.processing = true)
    (hj : p.joining = false) :
    (p.step cv a).decode = CapturePc.done ∧
    (p.step cv a).vp.processing = true ∧
    (p.step cv a).joining = false ∧
    (p.step cv a).vp.captureThread = p.vp.captureThread ∧
    (p.step cv a).vp.frameQueue <:+ p.vp.frameQueue ∧
    (p.step cv a).readLog = p.readLog := by
  cases a with
  | decode =>
    have hs : p.step cv Action.decode = p := by
      simp only [Pipeline.step, decodeStep_done cv p hd]
    rw [hs]
    exact ⟨hd, hp, hj, rfl, List.suffix_rfl, rfl⟩
  | filter timeout now =>
    obtain ⟨g1, _, g3, g4, g5, g6, g7⟩ := filterStep_queue timeout now p
    have hs : p.step cv (Action.filter timeout now) = p.filterStep timeout now := rfl
    rw [hs]
    exact ⟨by rw [g5, hd], by rw [g3, hp], by rw [g6, hj], g4, g1, g7⟩
  | stopRequest => simp [Action.isStop] at ha
  | stopJoin => simp [Action.isStop] at ha
  | openVideo filename =>
    have h := openVideo_leaves_pipeline cv p.vp filename
    have hs : p.step cv (Action.openVideo filename)
        = { p with vp := (p.vp.openVideo cv filename).2 } := by simp [Pipeline.step, hj]
    rw [hs]
    exact decodeGone_call p _ hd hj (by rw [h.2.2.2.2.2.1, hp]) h.2.2.2.2.2.2.2.2.2.1
      (Or.inl h.2.2.2.2.2.2.2.2.1)
  | startProcessing =>
    have h := (startProcessing_queue p.vp).2.2 hp
    have hs : p.step cv Action.startProcessing = { p with vp := p.vp } := by
      simp [Pipeline.step, hj, afterCall_running p _ hp, h]
    rw [hs]
    exact decodeGone_call p _ hd hj hp rfl (Or.inl rfl)
  | pauseProcessing =>
    have hs : p.step cv Action.pauseProcessing = { p with vp := p.vp.pauseProcessing } := by
      simp [Pipeline.step, hj]
    rw [hs]
    exact decodeGone_call p _ hd hj hp rfl (Or.inl rfl)
  | resumeProcessing =>
    have hs : p.step cv Action.resumeProcessing = { p with vp := p.vp.resumeProcessing } := by
      simp [Pipeline.step, hj]
    rw [hs]
    exact decodeGone_call p _ hd hj hp rfl (Or.inl rfl)
  | addFilter filter =>
    have h := addFilter_queue p.vp filter
    have hs : p.step cv (Action.addFilter filter) = { p with vp := p.vp.addFilter filter } := by
      simp [Pipeline.step, hj]
    rw [hs]
    exact decodeGone_call p _ hd hj (by rw [h.2.2, hp]) (addFilter_thread p.vp filter)
      (Or.inl h.1)
  | removeFilter index =>
    have h := removeFilter_queue p.vp index
    have hs : p.step cv (Action.removeFilter index)
        = { p with vp := (p.vp.removeFilter index).2 } := by simp [Pipeline.step, hj]
    rw [hs]
    exact decodeGone_call p _ hd hj (by rw [h.2.2, hp]) (removeFilter_thread p.vp index)
      (Or.inl h.1)
  | setOutputFile filename fourcc fps =>
    have h := setOutputFile_queue cv p.vp filename fourcc fps
    have hs : p.step cv (Action.setOutputFile filename fourcc fps)
        = { p with vp := (p.vp.setOutputFile cv filename fourcc fps).2 } := by
      simp [Pipeline.step, hj]
    rw [hs]
    exact decodeGone_call p _ hd hj (by rw [h.2.2, hp])
      (setOutputFile_thread cv p.vp filename fourcc fps) (Or.inl h.1)
  | seekToFrame framePos =>
    have h := seekToFrame_queue cv p.vp framePos
    have hs : p.step cv (Action.seekToFrame framePos)
        = { p with vp := (p.vp.seekToFrame cv framePos).2 } := by simp [Pipeline.step, hj]
    rw [hs]
    exact decodeGone_call p _ hd hj (by rw [h.2.2, hp]) (seekToFrame_thread cv p.vp framePos)
      h.1
  | restartVideo =>
    have h := restartVideo_running cv p.vp hp
    have hs : p.step cv Action.restartVideo = { p with vp := (p.vp.restartVideo cv).2 } := by
      simp [Pipeline.step, hj, afterCall_running p _ hp]
    rw [hs]
    exact decodeGone_call p _ hd hj h.1 h.2.1 (Or.inl h.2.2)

theorem decodeGone_run (cv : OpenCV) (actions : List Action) (p : Pipeline)
    (ha : ∀ a ∈ actions, a.isStop = false)
    (hd : p.decode = CapturePc.done) (hp : p.vp.processing = true)
    (hj : p.joining = false) :
    (p.run cv actions).decode = CapturePc.done ∧
    (p.run cv actions).vp.processing = true ∧
    (p.run cv actions).vp.captureThread = p.vp.captureThread ∧
    (p.run cv actions).vp.frameQueue <:+ p.vp.frameQueue ∧
    (p.run cv actions).readLog = p.readLog := by
  induction actions generalizing p with
  | nil => exact ⟨hd, hp, rfl, List.suffix_rfl, rfl⟩
  | cons a rest ih =>
    obtain ⟨g1, g2, g3, g4, g5, g6⟩ :=
      decodeGone_step cv a p (ha a (List.mem_cons_self a rest)) hd hp hj
    obtain ⟨i1, i2, i3, i4, i5⟩ :=
      ih (p.step cv a) (fun b hb => ha b (List.mem_cons_of_mem a hb)) g1 g2 g3
    exact ⟨i1, i2, by rw [← g4]; exact i3, i4.trans g5, by rw [← g6]; exact i5⟩

/-- C20: let the decode task have returned (as it does at the end of the
stream) with the processing flag still set.  Then `restartVideo()`, on an
opened stream whose source accepts the reposition, returns true and clears
the ended flag but starts no decode task; `startProcessing()` returns true
and changes nothing; and in every state reached from there by steps of the
tasks and control calls other than `stopProcessing`, the decode task is
still returned, the processing flag is still set, no frame has been read
and the queue is a final part of the queue it was: no frame has been pushed. -/
theorem no_decode_after_end (cv : OpenCV) (p : Pipeline)
    (hdone : p.decode = CapturePc.done) (hproc : p.vp.processing = true)
    (hjoin : p.joining = false) :
    (p.vp.inputFilename.isEmpty = false → p.vp.videoCapture.isOpened = true →
      (cv.captureSet p.vp.videoCapture 0).1 = true →
      (p.vp.restartVideo cv).1 = true ∧
      (p.vp.restartVideo cv).2.hasVideoEnded = false ∧
      (p.vp.restartVideo cv).2.captureThread = p.vp.captureThread ∧
      (p.step cv Action.restartVideo).decode = CapturePc.done) ∧
    (p.vp.videoCapture.isOpened = true →
      p.vp.startProcessing = (true, p.vp) ∧
      (p.step cv Action.startProcessing).decode = CapturePc.done) ∧
    (∀ actions : List Action, (∀ a ∈ actions, a.isStop = false) →
      (p.run cv actions).decode = CapturePc.done ∧
      (p.run cv actions).vp.processing = true ∧
      (p.run cv actions).vp.captureThread = p.vp.captureThread ∧
      (p.run cv actions).vp.frameQueue <:+ p.vp.frameQueue ∧
      (p.run cv actions).readLog = p.readLog) := by
  refine ⟨fun hname hopen hset => ?_, fun hopen => ?_, fun actions ha => ?_⟩
  · refine ⟨?_, ?_, (restartVideo_running cv p.vp hproc).2.1,
      (decodeGone_step cv Action.restartVideo p rfl hdone hproc hjoin).1⟩
    · unfold VideoProcessor.restartVideo
      simp only [hname, hopen, hset, hproc]
      split_ifs <;> simp_all
    · unfold VideoProcessor.restartVideo VideoProcessor.hasVideoEnded
      simp only [hname, hopen, hset, hproc, VideoProcessor.resumeProcessing]
      split_ifs <;> simp_all
  · refine ⟨?_, (decodeGone_step cv Action.startProcessing p rfl hdone hproc hjoin).1⟩
    simp [VideoProcessor.startProcessing, hopen, hproc]
  · exact decodeGone_run cv actions p ha hdone hproc hjoin

/-- C20 instantiated: after the sample stream has ended with two frames
still queued, `restartVideo()` returns true and clears the ended flag, and
after it, a `startProcessing()` and forty steps of the decode task the
decode task is still returned and nothing has been read. -/
theorem no_decode_after_end_witness :
    sampleEnded.vp.hasVideoEnded = true ∧
    (sampleEnded.vp.restartVideo sampleCv).1 = true ∧
    (sampleEnded.vp.restartVideo sampleCv).2.hasVideoEnded = false ∧
    (sampleEnded.run sampleCv
      ([Action.restartVideo, Action.startProcessing] ++
        List.replicate 40 Action.decode)).decode = CapturePc.done ∧
    (sampleEnded.run sampleCv
      ([Action.restartVideo, Action.startProcessing] ++
        List.replicate 40 Action.decode)).readLog = sampleEnded.readLog :=
  have h := no_decode_after_end sampleCv sampleEnded (by decide) (by decide) (by decide)
  have h1 := h.1 (by decide) (by decide) (by decide)
  have h3 := h.2.2 ([Action.restartVideo, Action.startProcessing] ++
    List.replicate 40 Action.decode) (by decide)
  ⟨by decide, h1.1, h1.2.1, h3.1, h3.2.2.2.2⟩

/-! ## Restarting -/

theorem decodeStep_flags (cv : OpenCV) (p : Pipeline) :
    (p.decodeStep cv).vp.processing = p.vp.processing ∧
    (p.decodeStep cv).vp.stopRequested = p.vp.stopRequested := by
  unfold Pipeline.decodeStep
  cases p.decode <;> simp only [Pipeline.decodeExit] <;> (try split) <;> simp

theorem afterCall_vp (p : Pipeline) (vp1 : VideoProcessor) : (p.afterCall vp1).vp = vp1 := by
  unfold Pipeline.afterCall
  split <;> rfl

theorem startProcessing_flags (self : VideoProcessor)
    (h : self.processing = true → self.stopRequested = false) :
    self.startProcessing.2.processing = true → self.startProcessing.2.stopRequested = false := by
  unfold VideoProcessor.startProcessing
  cases ho : self.videoCapture.isOpened <;> cases hp : self.processing <;> simp_all

theorem restartVideo_flags (cv : OpenCV) (self : VideoProcessor)
    (h : self.processing = true → self.stopRequested = false) :
    (self.restartVideo cv).2.processing = true →
      (self.restartVideo cv).2.stopRequested = false := by
  unfold VideoProcessor.restartVideo
  simp only [VideoProcessor.resumeProcessing]
  split_ifs
  · exact h
  · intro hs
    exact startProcessing_flags _ (by simpa using h) hs
  · simpa using h
  · simpa using h
  · simpa using h

theorem flags_step (cv : OpenCV) (a : Action) (p : Pipeline)
    (h : p.vp.processing = true → p.vp.stopRequested = false) :
    (p.step cv a).vp.processing = true → (p.step cv a).vp.stopRequested = false := by
  cases a with
  | decode =>
    have g := decodeStep_flags cv p
    show (p.decodeStep cv).vp.processing = true → (p.decodeStep cv).vp.stopRequested = false
    rw [g.1, g.2]
    exact h
  | filter timeout now =>
    obtain ⟨_, g2, g3, _⟩ := filterStep_queue timeout now p
    show (p.filterStep timeout now).vp.processing = true →
      (p.filterStep timeout now).vp.stopRequested = false
    rw [g2, g3]
    exact h
  | stopRequest =>
    unfold Pipeline.step
    simp only
    split_ifs
    · exact h
    · simp [VideoProcessor.stopSignal]
    · exact h
  | stopJoin =>
    unfold Pipeline.step
    simp only
    split_ifs
    · simp only [VideoProcessor.stopJoin]
      split_ifs <;> simpa using h
    · exact h
  | openVideo filename =>
    have g := openVideo_queue cv p.vp filename
    unfold Pipeline.step
    simp only
    split_ifs
    · exact h
    · simpa [g.2.1, g.2.2] using h
  | startProcessing =>
    unfold Pipeline.step
    simp only
    split_ifs
    · exact h
    · rw [afterCall_vp]
      exact startProcessing_flags p.vp h
  | pauseProcessing =>
    unfold Pipeline.step
    simp only
    split_ifs
    · exact h
    · simpa [VideoProcessor.pauseProcessing] using h
  | resumeProcessing =>
    unfold Pipeline.step
    simp only
    split_ifs
    · exact h
    · simpa [VideoProcessor.resumeProcessing] using h
  | addFilter filter =>
    have g := addFilter_queue p.vp filter
    unfold Pipeline.step
    simp only
    split_ifs
    · exact h
    · simpa [g.2.1, g.2.2] using h
  | removeFilter index =>
    have g := removeFilter_queue p.vp index
    unfold Pipeline.step
    simp only
    split_ifs
    · exact h
    · simpa [g.2.1, g.2.2] using h
  | setOutputFile filename fourcc fps =>
    have g := setOutputFile_queue cv p.vp filename fourcc fps
    unfold Pipeline.step
    simp only
    split_ifs
    · exact h
    · simpa [g.2.1, g.2.2] using h
  | seekToFrame framePos =>
    have g := seekToFrame_queue cv p.vp framePos
    unfold Pipeline.step
    simp only
    split_ifs
    · exact h
    · simpa [g.2.1, g.2.2] using h
  | restartVideo =>
    unfold Pipeline.step
    simp only
    split_ifs
    · exact h
    · rw [afterCall_vp]
      exact restartVideo_flags cv p.vp h

theorem flags_run (cv : OpenCV) (actions : List Action) (p : Pipeline)
    (h : p.vp.processing = true → p.vp.stopRequested = false) :
    (p.run cv actions).vp.processing = true → (p.run cv actions).vp.stopRequested = false := by
  induction actions generalizing p with
  | nil => exact h
  | cons a rest ih => exact ih (p.step cv a) (flags_step cv a p h)

/-- C11: let the controller be in a state reached from construction by any
steps of the two tasks and any control calls, with an opened stream (the
handle is open and the file name stored by `openVideo` is not empty) whose
source accepts the reposition to frame 0 and stays open.  Then
`restartVideo()` returns true and afterwards `hasVideoEnded()` is false,
`getCurrentFramePosition()` is 0, `isProcessing()` is true and the pause
flag is clear, whether the pipeline was not running, paused or running. -/
theorem restartVideo_contract (cv : OpenCV) (actions : List Action) (self : VideoProcessor)
    (hreach : (Pipeline.create.run cv actions).vp = self)
    (hname : self.inputFilename.isEmpty = false)
    (hopen : self.videoCapture.isOpened = true)
    (hset : (cv.captureSet self.videoCapture 0).1 = true)
    (hstill : (cv.captureSet self.videoCapture 0).2.isOpened = true) :
    (self.restartVideo cv).1 = true ∧
    (self.restartVideo cv).2.hasVideoEnded = false ∧
    (self.restartVideo cv).2.getCurrentFramePosition = 0 ∧
    (self.restartVideo cv).2.isProcessing = true ∧
    (self.restartVideo cv).2.paused = false := by
  have hflags : self.processing = true → self.stopRequested = false := by
    rw [← hreach]
    exact flags_run cv actions Pipeline.create (by simp [Pipeline.create])
  unfold VideoProcessor.restartVideo VideoProcessor.hasVideoEnded
    VideoProcessor.getCurrentFramePosition VideoProcessor.isProcessing
  simp only [hname, hopen, hset, VideoProcessor.resumeProcessing,
    VideoProcessor.startProcessing, hstill]
  cases hp : self.processing <;> cases hq : self.paused <;> simp_all

/-- C11 instantiated: on the sample stream, `restartVideo()` succeeds with the
promised flags both when the stream was opened and never started and when it
has run to its end. -/
theorem restartVideo_contract_witness :
    (Pipeline.create.run sampleCv [Action.openVideo "sample_video.mp4"]).vp.processing
      = false ∧
    ((Pipeline.create.run sampleCv
      [Action.openVideo "sample_video.mp4"]).vp.restartVideo sampleCv).1 = true ∧
    ((Pipeline.create.run sampleCv
      [Action.openVideo "sample_video.mp4"]).vp.restartVideo sampleCv).2.isProcessing = true ∧
    (Pipeline.create.run sampleCv endedRun).vp.hasVideoEnded = true ∧
    ((Pipeline.create.run sampleCv endedRun).vp.restartVideo sampleCv).2.hasVideoEnded
      = false ∧
    ((Pipeline.create.run sampleCv endedRun).vp.restartVideo sampleCv).2.isProcessing = true :=
  have h1 := restartVideo_contract sampleCv [Action.openVideo "sample_video.mp4"] _ rfl
    (by decide) (by decide) (by decide) (by decide)
  have h2 := restartVideo_contract sampleCv endedRun _ rfl
    (by decide) (by decide) (by decide) (by decide)
  ⟨by decide, h1.1, h1.2.2.2.1, by decide, h2.2.1, h2.2.2.2.1⟩

/-! ## The aperture size of the edge detection -/

theorem edgeDetection_thresholds_keep_aperture (self : EdgeDetectionFilter) (params : Params) :
    (EdgeDetectionFilter.configureThreshold2 params
      (EdgeDetectionFilter.configureThreshold1 params (false, self))).2.apertureSize
      = self.apertureSize := by
  unfold EdgeDetectionFilter.configureThreshold2 EdgeDetectionFilter.configureThreshold1
  cases params "threshold1" <;> cases params "threshold2" <;> simp <;> split_ifs <;> simp

theorem truncToInt_fivePointNine : truncToInt (59 / 10) = 5 := by
  unfold truncToInt
  rw [if_pos (by norm_num)]
  rw [Int.floor_eq_iff]
  constructor <;> norm_num

/-- C21: the aperture size of the edge detection is always 3, 5 or 7.  The
default constructor sets 3; the three-argument constructor keeps a requested
3, 5 or 7 and replaces every other value by 3; `configure` keeps a size
that is 3, 5 or 7 among these values: for a map that holds `apertureSize`
it stores the integer part of the value when that is 3, 5 or 7 and leaves
the size unchanged otherwise, and without the key the size is unchanged. -/
theorem edge_apertureSize_valid :
    EdgeDetectionFilter.create.apertureSize = 3 ∧
    (∀ (threshold1 threshold2 : ℚ) (apertureSize : Int),
      (apertureSize = 3 ∨ apertureSize = 5 ∨ apertureSize = 7 →
        (EdgeDetectionFilter.construct threshold1 threshold2 apertureSize).apertureSize
          = apertureSize) ∧
      (¬ (apertureSize = 3 ∨ apertureSize = 5 ∨ apertureSize = 7) →
        (EdgeDetectionFilter.construct threshold1 threshold2 apertureSize).apertureSize = 3) ∧
      ((EdgeDetectionFilter.construct threshold1 threshold2 apertureSize).apertureSize = 3 ∨
        (EdgeDetectionFilter.construct threshold1 threshold2 apertureSize).apertureSize = 5 ∨
        (EdgeDetectionFilter.construct threshold1 threshold2 apertureSize).apertureSize = 7)) ∧
    (∀ (self : EdgeDetectionFilter) (params : Params),
      (self.apertureSize = 3 ∨ self.apertureSize = 5 ∨ self.apertureSize = 7) →
      ((self.configure params).2.apertureSize = 3 ∨
        (self.configure params).2.apertureSize = 5 ∨
        (self.configure params).2.apertureSize = 7)) ∧
    (∀ (self : EdgeDetectionFilter) (params : Params) (value : ℚ),
      params "apertureSize" = some value →
      ((truncToInt value = 3 ∨ truncToInt value = 5 ∨ truncToInt value = 7) →
        (self.configure params).2.apertureSize = truncToInt value) ∧
      (¬ (truncToInt value = 3 ∨ truncToInt value = 5 ∨ truncToInt value = 7) →
        (self.configure params).2.apertureSize = self.apertureSize)) ∧
    (∀ (self : EdgeDetectionFilter) (params : Params),
      params "apertureSize" = none →
        (self.configure params).2.apertureSize = self.apertureSize) := by
  have hconstruct : ∀ (threshold1 threshold2 : ℚ) (apertureSize : Int),
      (apertureSize = 3 ∨ apertureSize = 5 ∨ apertureSize = 7 →
        (EdgeDetectionFilter.construct threshold1 threshold2 apertureSize).apertureSize
          = apertureSize) ∧
      (¬ (apertureSize = 3 ∨ apertureSize = 5 ∨ apertureSize = 7) →
        (EdgeDetectionFilter.construct threshold1 threshold2 apertureSize).apertureSize
          = 3) := by
    intro threshold1 threshold2 apertureSize
    unfold EdgeDetectionFilter.construct
    constructor
    · intro hv
      have hn : ¬ (apertureSize ≠ 3 ∧ apertureSize ≠ 5 ∧ apertureSize ≠ 7) := by omega
      simp [hn]
    · intro hv
      have hn : apertureSize ≠ 3 ∧ apertureSize ≠ 5 ∧ apertureSize ≠ 7 := by omega
      simp [hn]
  have hstore : ∀ (self : EdgeDetectionFilter) (params : Params) (value : ℚ),
      params "apertureSize" = some value →
      ((truncToInt value = 3 ∨ truncToInt value = 5 ∨ truncToInt value = 7) →
        (self.configure params).2.apertureSize = truncToInt value) ∧
      (¬ (truncToInt value = 3 ∨ truncToInt value = 5 ∨ truncToInt value = 7) →
        (self.configure params).2.apertureSize = self.apertureSize) := by
    intro self params value hv
    have hk := edgeDetection_thresholds_keep_aperture self params
    unfold EdgeDetectionFilter.configure EdgeDetectionFilter.configureApertureSize
    rw [hv]
    constructor
    · intro h
      simp [h]
    · intro h
      simp [h, hk]
  have hnone : ∀ (self : EdgeDetectionFilter) (params : Params),
      params "apertureSize" = none →
        (self.configure params).2.apertureSize = self.apertureSize := by
    intro self params hv
    have hk := edgeDetection_thresholds_keep_aperture self params
    unfold EdgeDetectionFilter.configure EdgeDetectionFilter.configureApertureSize
    rw [hv]
    simpa using hk
  refine ⟨rfl, ?_, ?_, hstore, hnone⟩
  · intro threshold1 threshold2 apertureSize
    obtain ⟨h1, h2⟩ := hconstruct threshold1 threshold2 apertureSize
    refine ⟨h1, h2, ?_⟩
    by_cases hv : apertureSize = 3 ∨ apertureSize = 5 ∨ apertureSize = 7
    · rw [h1 hv]
      exact hv
    · rw [h2 hv]
      exact Or.inl rfl
  · intro self params hvalid
    cases hv : params "apertureSize" with
    | none =>
      rw [hnone self params hv]
      exact hvalid
    | some value =>
      obtain ⟨h1, h2⟩ := hstore self params value hv
      by_cases ht : truncToInt value = 3 ∨ truncToInt value = 5 ∨ truncToInt value = 7
      · rw [h1 ht]
        exact ht
      · rw [h2 ht]
        exact hvalid

/-- C21 instantiated: a request for the aperture size 5.9 on a default filter
stores 5, and the constructor called with the aperture size 4 stores 3. -/
theorem edge_apertureSize_valid_witness :
    (EdgeDetectionFilter.create.configure apertureFivePointNine).2.apertureSize = 5 ∧
    (EdgeDetectionFilter.construct 100 200 4).apertureSize = 3 :=
  have h := (edge_apertureSize_valid.2.2.2.1 EdgeDetectionFilter.create apertureFivePointNine
    (59 / 10) (by simp [apertureFivePointNine, singleParam])).1
      (by rw [truncToInt_fivePointNine]; decide)
  ⟨by rw [h, truncToInt_fivePointNine],
    (edge_apertureSize_valid.2.1 100 200 4).2.1 (by decide)⟩

/-! ## The frame rate is never reset -/

theorem openVideo_currentFps (cv : OpenCV) (self : VideoProcessor) (filename : String) :
    (self.openVideo cv filename).2.currentFps = self.currentFps := by
  unfold VideoProcessor.openVideo VideoProcessor.closePrevious
  simp only []
  split_ifs <;> simp

theorem startProcessing_currentFps (self : VideoProcessor) :
    self.startProcessing.2.currentFps = self.currentFps := by
  unfold VideoProcessor.startProcessing
  split_ifs <;> simp

theorem stopJoin_currentFps (self : VideoProcessor) :
    self.stopJoin.currentFps = self.currentFps := by
  unfold VideoProcessor.stopJoin
  simp only []
  split_ifs <;> simp

theorem stopProcessing_currentFps (self : VideoProcessor) :
    self.stopProcessing.currentFps = self.currentFps := by
  unfold VideoProcessor.stopProcessing
  simp only []
  split_ifs <;> simp

theorem addFilter_currentFps (self : VideoProcessor) (filter : Option Filter) :
    (self.addFilter filter).currentFps = self.currentFps := by
  cases filter <;> simp [VideoProcessor.addFilter]

theorem removeFilter_currentFps (self : VideoProcessor) (index : Nat) :
    (self.removeFilter index).2.currentFps = self.currentFps := by
  unfold VideoProcessor.removeFilter
  split <;> simp

theorem setOutputFile_currentFps (cv : OpenCV) (self : VideoProcessor) (filename : String)
    (fourcc : Int) (fps : ℚ) :
    (self.setOutputFile cv filename fourcc fps).2.currentFps = self.currentFps := by
  unfold VideoProcessor.setOutputFile
  simp only []
  split_ifs <;> simp

theorem seekToFrame_currentFps (cv : OpenCV) (self : VideoProcessor) (framePos : Int) :
    (self.seekToFrame cv framePos).2.currentFps = self.currentFps := by
  unfold VideoProcessor.seekToFrame
  simp only [VideoProcessor.pauseProcessing, VideoProcessor.resumeProcessing]
  split_ifs <;> simp

theorem restartVideo_currentFps (cv : OpenCV) (self : VideoProcessor) :
    (self.restartVideo cv).2.currentFps = self.currentFps := by
  unfold VideoProcessor.restartVideo
  simp only [VideoProcessor.resumeProcessing]
  split_ifs <;> simp [startProcessing_currentFps]

theorem onTogglePlayPause_currentFps (processor : VideoProcessor) :
    (UserInterface.onTogglePlayPause processor).currentFps = processor.currentFps := by
  unfold UserInterface.onTogglePlayPause
  simp only [VideoProcessor.resumeProcessing, VideoProcessor.pauseProcessing]
  split_ifs <;> simp [startProcessing_currentFps]

theorem decodeStep_currentFps (cv : OpenCV) (p : Pipeline) :
    (p.decodeStep cv).vp.currentFps = p.vp.currentFps := by
  unfold Pipeline.decodeStep
  cases p.decode <;> simp only [Pipeline.decodeExit] <;> (try split) <;> simp

theorem filterStep_currentFps (timeout : Bool) (now : Int) (p : Pipeline)
    (hf : p.filter ≠ FilterPc.frameRate) :
    (p.filterStep timeout now).vp.currentFps = p.vp.currentFps := by
  have hpop : p.popFront.vp.currentFps = p.vp.currentFps := by
    unfold Pipeline.popFront
    cases p.vp.frameQueue <;> simp
  have hafter : p.afterWait.vp.currentFps = p.vp.currentFps := by
    unfold Pipeline.afterWait
    split_ifs
    · simp [Pipeline.filterExit]
    · simp
    · exact hpop
  unfold Pipeline.filterStep
  cases hpc : p.filter with
  | absent => simp
  | done => simp
  | loopTest => simp only; split <;> simp [Pipeline.filterExit]
  | fetch =>
    simp only
    split
    · split <;> simp
    · exact hpop
  | timedWait =>
    simp only
    split
    · split
      · simp
      · exact hafter
    · simp
  | wait =>
    simp only
    split
    · exact hafter
    · simp
  | apply inputFrame => simp
  | write outputFrame => simp only; split <;> simp
  | publish outputFrame => simp
  | frameRate => exact absurd hpc hf

theorem step_currentFps (cv : OpenCV) (a : Action) (p : Pipeline) :
    ((p.step cv a).vp.currentFps = p.vp.currentFps ∧ rateMeasuredAt a p = []) ∨
    (∃ r : ℚ, 0 < r ∧ rateMeasuredAt a p = [r] ∧
      (p.step cv a).vp.currentFps = p.vp.currentFps * (9 / 10) + r * (1 / 10)) := by
  have hcall : ∀ vp1 : VideoProcessor, vp1.currentFps = p.vp.currentFps →
      (Pipeline.vp (if p.joining = true then p else { p with vp := vp1 })).currentFps
        = p.vp.currentFps := by
    intro vp1 h
    split
    · rfl
    · exact h
  cases a with
  | decode =>
    exact Or.inl ⟨decodeStep_currentFps cv p, by simp [rateMeasuredAt]⟩
  | filter timeout now =>
    by_cases hf : p.filter = FilterPc.frameRate
    · have hs : (p.step cv (Action.filter timeout now)).vp = p.vp.updateFrameRate now := by
        simp [Pipeline.step, Pipeline.filterStep, hf]
      by_cases hm : measured p.vp now = true
      · have hm2 := (measured_iff p.vp now).mp hm
        refine Or.inr ⟨1000 / ((elapsedMilliseconds p.vp.lastFrameTime now : Int) : ℚ),
          ?_, ?_, ?_⟩
        · have hd : (0 : ℚ) < ((elapsedMilliseconds p.vp.lastFrameTime now : Int) : ℚ) := by
            exact_mod_cast hm2.2
          positivity
        · simp [rateMeasuredAt, hf, hm]
        · rw [hs]
          exact updateFrameRate_measured p.vp now hm2.1 hm2.2
      · have hm2 : ¬ (0 < p.vp.lastFrameTime ∧
            0 < elapsedMilliseconds p.vp.lastFrameTime now) := by
          rw [← measured_iff]
          exact hm
        refine Or.inl ⟨?_, ?_⟩
        · rw [hs]
          exact updateFrameRate_unmeasured p.vp now (by omega)
        · simp [rateMeasuredAt, hf, hm]
    · refine Or.inl ⟨filterStep_currentFps timeout now p hf, ?_⟩
      unfold rateMeasuredAt
      cases hpc : p.filter <;> simp_all
  | stopRequest =>
    refine Or.inl ⟨?_, by simp [rateMeasuredAt]⟩
    unfold Pipeline.step
    simp only
    split_ifs <;> simp [VideoProcessor.stopSignal]
  | stopJoin =>
    refine Or.inl ⟨?_, by simp [rateMeasuredAt]⟩
    unfold Pipeline.step
    simp only
    split_ifs <;> simp [stopJoin_currentFps]
  | openVideo filename =>
    exact Or.inl ⟨hcall _ (openVideo_currentFps cv p.vp filename), by simp [rateMeasuredAt]⟩
  | startProcessing =>
    refine Or.inl ⟨?_, by simp [rateMeasuredAt]⟩
    unfold Pipeline.step
    simp only
    split_ifs
    · rfl
    · rw [afterCall_vp]
      exact startProcessing_currentFps p.vp
  | pauseProcessing =>
    exact Or.inl ⟨hcall _ (by simp [VideoProcessor.pauseProcessing]), by simp [rateMeasuredAt]⟩
  | resumeProcessing =>
    exact Or.inl ⟨hcall _ (by simp [VideoProcessor.resumeProcessing]),
      by simp [rateMeasuredAt]⟩
  | addFilter filter =>
    exact Or.inl ⟨hcall _ (addFilter_currentFps p.vp filter), by simp [rateMeasuredAt]⟩
  | removeFilter index =>
    exact Or.inl ⟨hcall _ (removeFilter_currentFps p.vp index), by simp [rateMeasuredAt]⟩
  | setOutputFile filename fourcc fps =>
    exact Or.inl ⟨hcall _ (setOutputFile_currentFps cv p.vp filename fourcc fps),
      by simp [rateMeasuredAt]⟩
  | seekToFrame framePos =>
    exact Or.inl ⟨hcall _ (seekToFrame_currentFps cv p.vp framePos), by simp [rateMeasuredAt]⟩
  | restartVideo =>
    refine Or.inl ⟨?_, by simp [rateMeasuredAt]⟩
    unfold Pipeline.step
    simp only
    split_ifs
    · rfl
    · rw [afterCall_vp]
      exact restartVideo_currentFps cv p.vp

theorem largestRate_nonneg (rates : List ℚ) : 0 ≤ largestRate rates := by
  induction rates with
  | nil => simp [largestRate]
  | cons r rest ih =>
    have : largestRate (r :: rest) = max r (largestRate rest) := rfl
    rw [this]
    exact le_max_of_le_right ih

theorem largestRate_append (l1 l2 : List ℚ) :
    largestRate (l1 ++ l2) = max (largestRate l1) (largestRate l2) := by
  induction l1 with
  | nil =>
    have h := largestRate_nonneg l2
    simp [largestRate] at h ⊢
    exact h
  | cons r rest ih =>
    have h1 : largestRate (r :: rest ++ l2) = max r (largestRate (rest ++ l2)) := rfl
    have h2 : largestRate (r :: rest) = max r (largestRate rest) := rfl
    rw [h1, h2, ih, max_assoc]

theorem run_currentFps_bounds (cv : OpenCV) (actions : List Action) (p : Pipeline)
    (h0 : 0 ≤ p.vp.currentFps) :
    0 ≤ (p.run cv actions).vp.currentFps ∧
    (0 < p.vp.currentFps → 0 < (p.run cv actions).vp.currentFps) ∧
    (measuredRates cv actions p ≠ [] → 0 < (p.run cv actions).vp.currentFps) ∧
    (p.run cv actions).vp.currentFps
      ≤ max p.vp.currentFps (largestRate (measuredRates cv actions p)) := by
  induction actions generalizing p with
  | nil =>
    refine ⟨h0, fun h => h, fun h => absurd rfl h, ?_⟩
    exact le_max_left _ _
  | cons a rest ih =>
    have hrun : p.run cv (a :: rest) = (p.step cv a).run cv rest := rfl
    have hrates : measuredRates cv (a :: rest) p
        = rateMeasuredAt a p ++ measuredRates cv rest (p.step cv a) := rfl
    rw [hrun, hrates, largestRate_append]
    rcases step_currentFps cv a p with ⟨hs, hr⟩ | ⟨r, hr0, hr, hs⟩
    · obtain ⟨i1, i2, i3, i4⟩ := ih (p.step cv a) (by rw [hs]; exact h0)
      rw [hs] at i2 i4
      refine ⟨i1, i2, ?_, ?_⟩
      · intro hne
        rw [hr] at hne
        exact i3 (by simpa using hne)
      · rw [hr]
        have hz : largestRate ([] : List ℚ) = 0 := rfl
        rw [hz]
        have hn := largestRate_nonneg (measuredRates cv rest (p.step cv a))
        rw [max_eq_right hn]
        exact i4
    · have hpos : 0 < (p.step cv a).vp.currentFps := by
        rw [hs]
        nlinarith
      have hle : (p.step cv a).vp.currentFps ≤ max p.vp.currentFps r := by
        rw [hs]
        rcases le_total p.vp.currentFps r with h | h
        · rw [max_eq_right h]
          nlinarith
        · rw [max_eq_left h]
          nlinarith
      obtain ⟨i1, i2, _, i4⟩ := ih (p.step cv a) hpos.le
      refine ⟨i1, fun _ => i2 hpos, fun _ => i2 hpos, ?_⟩
      rw [hr]
      have hone : largestRate [r] = max r 0 := rfl
      rw [hone, max_eq_left hr0.le]
      calc (Pipeline.run cv rest (p.step cv a)).vp.currentFps
          ≤ max (p.step cv a).vp.currentFps
              (largestRate (measuredRates cv rest (p.step cv a))) := i4
        _ ≤ max (max p.vp.currentFps r)
              (largestRate (measuredRates cv rest (p.step cv a))) :=
            max_le_max hle (le_refl _)
        _ = max p.vp.currentFps
              (max r (largestRate (measuredRates cv rest (p.step cv a)))) := max_assoc _ _ _

theorem toggleBranch_resume (processor : VideoProcessor)
    (h : UserInterface.toggleBranch processor = ToggleBranch.resume) :
    processor.getFrameRate = 0 := by
  unfold UserInterface.toggleBranch at h
  split_ifs at h with h1 h2 h3
  exact h3

/-- C22: over exact arithmetic, in every state reached from construction by
steps of the two tasks and control calls in any order (pause, resume, seek,
the two halves of stop, start, open, restart and the filter calls), the
frame rate is not negative and does not exceed the largest instantaneous rate
measured so far; it is greater than zero as soon as one rate has been
measured.  Once it is greater than zero it stays so after every further such
step: no call resets it, `onTogglePlayPause` leaves it as it is, and the
branch of `onTogglePlayPause` that tests `getFrameRate() == 0` and resumes is
not taken in any later state. -/
theorem frameRate_never_reset (cv : OpenCV) (actions : List Action) :
    0 ≤ (Pipeline.create.run cv actions).vp.getFrameRate ∧
    (Pipeline.create.run cv actions).vp.getFrameRate
      ≤ largestRate (measuredRates cv actions Pipeline.create) ∧
    (measuredRates cv actions Pipeline.create ≠ [] →
      0 < (Pipeline.create.run cv actions).vp.getFrameRate) ∧
    (∀ more : List Action, 0 < (Pipeline.create.run cv actions).vp.getFrameRate →
      0 < ((Pipeline.create.run cv actions).run cv more).vp.getFrameRate ∧
      (UserInterface.onTogglePlayPause
        ((Pipeline.create.run cv actions).run cv more).vp).getFrameRate
        = ((Pipeline.create.run cv actions).run cv more).vp.getFrameRate ∧
      UserInterface.toggleBranch ((Pipeline.create.run cv actions).run cv more).vp
        ≠ ToggleBranch.resume) := by
  have hzero : Pipeline.create.vp.currentFps = 0 := rfl
  obtain ⟨h1, _, h3, h4⟩ := run_currentFps_bounds cv actions Pipeline.create (by rw [hzero])
  refine ⟨h1, ?_, h3, ?_⟩
  · rw [hzero, max_eq_right (largestRate_nonneg _)] at h4
    exact h4
  · intro more hpos
    have hmore := (run_currentFps_bounds cv more (Pipeline.create.run cv actions) h1).2.1 hpos
    refine ⟨hmore, onTogglePlayPause_currentFps _, ?_⟩
    intro hres
    have hz := toggleBranch_resume _ hres
    unfold VideoProcessor.getFrameRate at hz
    rw [hz] at hmore
    exact lt_irrefl _ hmore

/-- C22 instantiated: in the sample run the second publish measures one rate;
from then on the frame rate is greater than zero, also after a later
`pauseProcessing()`, and on that paused pipeline `onTogglePlayPause` does not
take its resume branch. -/
theorem frameRate_never_reset_witness :
    (measuredRates sampleCv measuringRun Pipeline.create).length = 1 ∧
    0 < (Pipeline.create.run sampleCv measuringRun).vp.getFrameRate ∧
    ((Pipeline.create.run sampleCv measuringRun).run sampleCv
      [Action.pauseProcessing]).vp.paused = true ∧
    0 < ((Pipeline.create.run sampleCv measuringRun).run sampleCv
      [Action.pauseProcessing]).vp.getFrameRate ∧
    UserInterface.toggleBranch ((Pipeline.create.run sampleCv measuringRun).run sampleCv
      [Action.pauseProcessing]).vp ≠ ToggleBranch.resume :=
  have hlen : (measuredRates sampleCv measuringRun Pipeline.create).length = 1 := by decide
  have hne : measuredRates sampleCv measuringRun Pipeline.create ≠ [] := by
    intro h
    rw [h] at hlen
    exact absurd hlen (by decide)
  have h := frameRate_never_reset sampleCv measuringRun
  have hpos := h.2.2.1 hne
  have hlater := h.2.2.2 [Action.pauseProcessing] hpos
  ⟨hlen, hpos, by decide, hlater.1, hlater.2.2⟩

end VideoFilterApp
